import Mathlib

/-!
# EUC-HUD: render state machine and ingestion pipeline

A shallow embedding of `src/main.cpp`.  The display driver is an external
collaborator: every call made on `tft` is recorded, in order, in the `ops`
field of the program state, so that "what a call emits" is the list of
operations it appends.  The four module-level integers, the private members
of `Display` and the trace together form the state `World`; every method is
a function `World → World`.
-/

namespace EucHud

/-! ## Colours (RGB565 values of the display library's header) -/

/-- Black, `ST77XX_BLACK`. -/
def ST77XX_BLACK : Nat := 0x0000
/-- White, `ST77XX_WHITE`. -/
def ST77XX_WHITE : Nat := 0xFFFF
/-- Red, `ST77XX_RED`. -/
def ST77XX_RED : Nat := 0xF800
/-- Green, `ST7735_GREEN`. -/
def ST7735_GREEN : Nat := 0x07E0
/-- Yellow, `ST7735_YELLOW`. -/
def ST7735_YELLOW : Nat := 0xFFE0
/-- Red under its older name, `ST7735_RED`. -/
def ST7735_RED : Nat := ST77XX_RED

/-- The macro `BACKGROUND_COLOR`. -/
def BACKGROUND_COLOR : Nat := ST77XX_BLACK
/-- The macro `TEXT_COLOR`. -/
def TEXT_COLOR : Nat := ST77XX_WHITE
/-- The macro `ALERT_COLOR`. -/
def ALERT_COLOR : Nat := ST77XX_RED

/-! ## The display surface -/

/-- One call on the display driver `tft`. -/
inductive Op where
  | fillScreen (color : Nat)
  | setTextColor (color : Nat)
  | setTextSize (size : Int)
  | setCursor (x y : Int)
  | print (text : String)
  | printChar (c : Char)
  | drawFastVLine (x y h : Int) (color : Nat)
  | initR (options : Nat)
  | setRotation (r : Int)
  | setSPISpeed (hz : Int)
  deriving DecidableEq, Repr

/-- What the program reads back from the driver: the width that
`getTextBounds("0", ...)` reports at a given text size, and `height()`. -/
structure Panel where
  textW : Int → Int
  height : Int

/-- The private members of `Display`. -/
structure Display where
  currentBattery : Int
  currentSpeed : Int
  inAlertMode : Bool
  deriving DecidableEq, Repr

/-- Program state: the four globals, the `display` object, and the trace of
driver calls made so far (oldest first). -/
structure World where
  currentBattery : Int
  currentSpeed : Int
  currentSafetyMargin : Int
  currentDistance : Int
  display : Display
  ops : List Op
  deriving DecidableEq, Repr

/-- Record one driver call. -/
def emit (o : Op) (w : World) : World :=
  { w with ops := w.ops ++ [o] }

namespace tft

/-- The call `tft.fillScreen(color)`. -/
def fillScreen (color : Nat) (w : World) : World := emit (Op.fillScreen color) w
/-- The call `tft.setTextColor(color)`. -/
def setTextColor (color : Nat) (w : World) : World := emit (Op.setTextColor color) w
/-- The call `tft.setTextSize(size)`. -/
def setTextSize (size : Int) (w : World) : World := emit (Op.setTextSize size) w
/-- The call `tft.setCursor(x, y)`. -/
def setCursor (x y : Int) (w : World) : World := emit (Op.setCursor x y) w
/-- The call `tft.print(text)` on a string. -/
def print (text : String) (w : World) : World := emit (Op.print text) w
/-- The call `tft.print(c)` on a single character. -/
def printChar (c : Char) (w : World) : World := emit (Op.printChar c) w
/-- The call `tft.drawFastVLine(x, y, h, color)`. -/
def drawFastVLine (x y h : Int) (color : Nat) (w : World) : World :=
  emit (Op.drawFastVLine x y h color) w
/-- The call `tft.initR(options)`. -/
def initR (options : Nat) (w : World) : World := emit (Op.initR options) w
/-- The call `tft.setRotation(r)`. -/
def setRotation (r : Int) (w : World) : World := emit (Op.setRotation r) w
/-- The call `tft.setSPISpeed(hz)`. -/
def setSPISpeed (hz : Int) (w : World) : World := emit (Op.setSPISpeed hz) w

end tft

/-! ## Strings -/

/-- The constructor `String(int)`: decimal text, with a leading minus sign
for a negative number. -/
def intToString (n : Int) : String := toString n

/-- Indexing `str[i]` of the Arduino string class: the character at `i`, or
the NUL character when `i` is past the end. -/
def charAt (s : String) (i : Nat) : Char := s.data.getD i (Char.ofNat 0)

/-- The expression `(v < 10) ? "0" + String(v) : String(min(v, 99))` of
`updateValue`. -/
def twoDigitStr (v : Int) : String :=
  if v < 10 then "0" ++ intToString v else intToString (min v 99)

/-- The expression `(v < 10) ? "0" + String(v) : String(v)` of
`updateAlertPercentage`. -/
def alertStr (v : Int) : String :=
  if v < 10 then "0" ++ intToString v else intToString v

/-! ## Render engine (`class Display`) -/

namespace Display

/-- The constant `SAFETY_THRESHOLD`. -/
def SAFETY_THRESHOLD : Int := 15

/-- The private method `drawLabels`. -/
def drawLabels (p : Panel) (w : World) : World :=
  w |> tft.setTextColor TEXT_COLOR
    |> tft.setTextSize 1
    |> tft.setCursor 5 5
    |> tft.print "BAT%"
    |> tft.setCursor 15 45
    |> tft.print "DIS"
    |> tft.setCursor 95 5
    |> tft.print "MPH"
    |> tft.drawFastVLine 50 0 p.height 0x7BEF

/-- The tab option `INITR_MINI160x80` of the display library's header. -/
def INITR_MINI160x80 : Nat := 0x04

/-- The method `init`. -/
def init (p : Panel) (w : World) : World :=
  w |> tft.initR INITR_MINI160x80
    |> tft.setRotation 1
    |> tft.fillScreen BACKGROUND_COLOR
    |> tft.setSPISpeed 20000000
    |> drawLabels p

/-- Body of the loop of `updateValue` for digit column `i`. -/
def updateValueStep (oldStr newStr : String) (x y gw : Int) (color : Nat)
    (w : World) (i : Nat) : World :=
  if charAt oldStr i ≠ charAt newStr i then
    w |> tft.setTextColor BACKGROUND_COLOR
      |> tft.setCursor (x + (i : Int) * gw) y
      |> tft.printChar (charAt oldStr i)
      |> tft.setTextColor color
      |> tft.setCursor (x + (i : Int) * gw) y
      |> tft.printChar (charAt newStr i)
  else w

/-- The private method `updateValue`: the loop runs for `i = 0, 1`. -/
def updateValue (p : Panel) (oldValue newValue x y : Int) (color : Nat) (size : Int)
    (w : World) : World :=
  let w1 := tft.setTextSize size w
  let gw := p.textW size
  let oldStr := twoDigitStr oldValue
  let newStr := twoDigitStr newValue
  (List.range 2).foldl (updateValueStep oldStr newStr x y gw color) w1

/-- The method `updateBattery`. -/
def updateBattery (p : Panel) (oldValue newValue : Int) (w : World) : World :=
  if !w.display.inAlertMode then
    if newValue > 80 then updateValue p oldValue newValue 0 20 ST7735_GREEN 3 w
    else if newValue > 60 then updateValue p oldValue newValue 0 20 ST7735_YELLOW 3 w
    else updateValue p oldValue newValue 0 20 ST7735_RED 3 w
  else w

/-- The method `updateSpeed`. -/
def updateSpeed (p : Panel) (oldValue newValue : Int) (w : World) : World :=
  if !w.display.inAlertMode then updateValue p oldValue newValue 70 20 TEXT_COLOR 7 w
  else w

/-- The method `updateDistance`. -/
def updateDistance (p : Panel) (oldValue newValue : Int) (w : World) : World :=
  if !w.display.inAlertMode then updateValue p oldValue newValue 0 60 TEXT_COLOR 3 w
  else w

/-- The private method `showFullScreenAlert`. -/
def showFullScreenAlert (w : World) : World :=
  w |> tft.fillScreen ALERT_COLOR
    |> tft.setTextColor TEXT_COLOR
    |> tft.setTextSize 2
    |> tft.setCursor 10 20
    |> tft.print "SAFETY MARGIN"

/-- The private method `updateAlertPercentage`. -/
def updateAlertPercentage (oldValue newValue : Int) (w : World) : World :=
  let oldStr := alertStr oldValue
  let newStr := alertStr newValue
  w |> tft.setTextSize 5
    |> tft.setTextColor ALERT_COLOR
    |> tft.setCursor 30 40
    |> tft.print oldStr
    |> tft.print "%"
    |> tft.setTextColor TEXT_COLOR
    |> tft.setCursor 30 40
    |> tft.print newStr
    |> tft.print "%"

/-- Assignment to the private member `inAlertMode`. -/
def setAlertMode (b : Bool) (w : World) : World :=
  { w with display := { w.display with inAlertMode := b } }

/-- The method `updateSafetyMargin`.  Inside `Display` the names
`currentBattery` and `currentSpeed` are the private members. -/
def updateSafetyMargin (p : Panel) (oldValue newValue : Int) (w : World) : World :=
  if newValue < SAFETY_THRESHOLD then
    let w1 := if !w.display.inAlertMode then showFullScreenAlert (setAlertMode true w) else w
    updateAlertPercentage oldValue newValue w1
  else if w.display.inAlertMode then
    let w1 := setAlertMode false w
    let w2 := tft.fillScreen BACKGROUND_COLOR w1
    let w3 := drawLabels p w2
    let w4 := updateBattery p 0 w3.display.currentBattery w3
    updateSpeed p 0 w4.display.currentSpeed w4
  else w

/-- The method `clearAndInitialize`.  `Display` has no member
`currentDistance`, so that name is the global. -/
def clearAndInitialize (p : Panel) (w : World) : World :=
  let w1 := tft.fillScreen BACKGROUND_COLOR w
  let w2 := drawLabels p w1
  let w3 := updateBattery p 0 w2.display.currentBattery w2
  let w4 := updateSpeed p 0 w3.display.currentSpeed w3
  updateDistance p 0 w4.currentDistance w4

/-- The method `setCurrentValues`: the first two assignments go to the
private members, the third to the global `currentDistance`. -/
def setCurrentValues (battery speed distance : Int) (w : World) : World :=
  { w with
    display := { w.display with currentBattery := battery, currentSpeed := speed }
    currentDistance := distance }

end Display

/-! ## Unit conversion: `round(v * 0.621371)` in binary64 arithmetic -/

/-- Significand of the binary64 number nearest to the literal `0.621371`
(`0x1.3e2456f75d9a1p-1`): the literal denotes `kmToMiSig / 2^53`. -/
def kmToMiSig : Nat := 5596812408117665

/-- The quotient `n / 2^s` rounded to an integer, to nearest, a tie going to
the even neighbour. -/
def roundNearestEven (n s : Nat) : Nat :=
  let q := n / 2 ^ s
  let r := n % 2 ^ s
  if 2 * r < 2 ^ s then q
  else if 2 ^ s < 2 * r then q + 1
  else if q % 2 = 0 then q else q + 1

/-- Number of binary digits of `n`, by repeated halving; `fuel` bounds the
number of halvings. -/
def bitLengthAux : Nat → Nat → Nat
  | 0, _ => 0
  | fuel + 1, n => if n = 0 then 0 else bitLengthAux fuel (n / 2) + 1

/-- Number of binary digits of `n` (0 for 0): the least `k` with `n < 2^k`. -/
def bitLength (n : Nat) : Nat := bitLengthAux n n

/-- Rounding of the non-negative real `n / 2^53` to a binary64 number (53
significant bits, round to nearest even), given as a numerator over `2^53`.
The exponent stays in the normal range for every product of a 32-bit `int`
with `0.621371`. -/
def roundBinary64 (n : Nat) : Nat :=
  let s := bitLength n - 53
  roundNearestEven n s * 2 ^ s

/-- The library function `round` on the non-negative binary64 number
`a / 2^53`: nearest integer, halfway cases away from zero. -/
def roundHalfAway (a : Nat) : Nat := (2 * a + 2 ^ 53) / 2 ^ 54

/-- The expression `round(v * 0.621371)` for an `int v`, converted back to
`int`: `v` is exact as a binary64 number, the product is rounded once, and
both steps are symmetric in the sign. -/
def kmToMi (v : Int) : Int :=
  Int.sign v * (roundHalfAway (roundBinary64 (v.natAbs * kmToMiSig)) : Int)

/-! ## Ingestion pipeline (`class APIManager`) -/

/-- A decoded response body: for each of the four keys, the value of
`doc[key]["v"].as<int>()` when `doc` has the key and the key has `"v"`. -/
structure Payload where
  vba : Option Int
  vsp : Option Int
  vsmg : Option Int
  vdi : Option Int
  deriving DecidableEq, Repr

namespace APIManager

/-- The `vba` block of `parseAndUpdateValues`. -/
def stepBattery (p : Panel) (doc : Payload) (w : World) : World :=
  match doc.vba with
  | some newBattery =>
    if newBattery ≠ w.currentBattery then
      { Display.updateBattery p w.currentBattery newBattery w with currentBattery := newBattery }
    else w
  | none => w

/-- The `vsp` block of `parseAndUpdateValues`. -/
def stepSpeed (p : Panel) (doc : Payload) (w : World) : World :=
  match doc.vsp with
  | some newSpeed =>
    if newSpeed ≠ w.currentSpeed then
      let newSpeed := kmToMi newSpeed
      { Display.updateSpeed p w.currentSpeed newSpeed w with currentSpeed := newSpeed }
    else w
  | none => w

/-- The `vsmg` block of `parseAndUpdateValues`. -/
def stepSafetyMargin (p : Panel) (doc : Payload) (w : World) : World :=
  match doc.vsmg with
  | some newSafetyMargin =>
    if newSafetyMargin ≠ w.currentSafetyMargin then
      { Display.updateSafetyMargin p w.currentSafetyMargin newSafetyMargin w with
        currentSafetyMargin := newSafetyMargin }
    else w
  | none => w

/-- The `vdi` block of `parseAndUpdateValues`. -/
def stepDistance (p : Panel) (doc : Payload) (w : World) : World :=
  match doc.vdi with
  | some newDistance =>
    if newDistance ≠ w.currentDistance then
      let newDistance := kmToMi newDistance
      { Display.updateDistance p w.currentDistance newDistance w with
        currentDistance := newDistance }
    else w
  | none => w

/-- The method `parseAndUpdateValues`; `none` is a body that
`deserializeJson` rejects. -/
def parseAndUpdateValues (p : Panel) (payload : Option Payload) (w : World) : World :=
  match payload with
  | none => w
  | some doc =>
    let w1 := stepBattery p doc w
    let w2 := stepSpeed p doc w1
    let w3 := stepSafetyMargin p doc w2
    let w4 := stepDistance p doc w3
    Display.setCurrentValues w4.currentBattery w4.currentSpeed w4.currentDistance w4

/-- The method `fetchValues`: `httpResponseCode` and `payload` are what
`http.GET()` and `http.getString()` return. -/
def fetchValues (p : Panel) (httpResponseCode : Int) (payload : Option Payload)
    (w : World) : World :=
  if httpResponseCode > 0 then parseAndUpdateValues p payload w else w

end APIManager

/-- State at power-up: the initialisers of the globals and of the members of
`display`, and an empty trace. -/
def boot : World :=
  { currentBattery := 0, currentSpeed := 0, currentSafetyMargin := 0, currentDistance := 0
    display := { currentBattery := 0, currentSpeed := 0, inAlertMode := false }
    ops := [] }

/-- The function `setup`, taken at the point where its connection loops have
ended: `SPI.begin`, `wifiManager.connect()`, `isConnected()` and `delay` touch
neither the stored values nor the display. -/
def setup (p : Panel) (w : World) : World :=
  let w1 := Display.init p w
  let w2 := w1 |> tft.fillScreen BACKGROUND_COLOR
              |> tft.setTextColor TEXT_COLOR
              |> tft.setTextSize 2
              |> tft.setCursor 10 30
              |> tft.print "Connecting."
  let w3 := w2 |> tft.fillScreen BACKGROUND_COLOR
              |> tft.setCursor 10 40
              |> tft.print "Connected :)"
  let w4 := Display.clearAndInitialize p w3
  let w5 := Display.updateBattery p 22 0 w4
  let w6 := Display.updateSpeed p 22 0 w5
  Display.updateDistance p 22 0 w6

/-! ## Reading a trace -/

/-- The zero-padded two-digit decimal form of `n`, by division: tens digit,
then units digit. -/
def pad2 (n : Nat) : List Char := [Nat.digitChar (n / 10), Nat.digitChar (n % 10)]

/-- The erase-then-write pair of one digit cell: the old glyph in the
background colour, then the new glyph in `color`, both at `(cx, y)`. -/
def cellRedraw (cx y : Int) (color : Nat) (oldC newC : Char) : List Op :=
  [Op.setTextColor BACKGROUND_COLOR, Op.setCursor cx y, Op.printChar oldC,
   Op.setTextColor color, Op.setCursor cx y, Op.printChar newC]

/-- Whether an operation prints text. -/
def Op.isPrint : Op → Bool
  | Op.print _ => true
  | Op.printChar _ => true
  | _ => false

/-- Whether an operation is a full-screen fill. -/
def Op.isFill : Op → Bool
  | Op.fillScreen _ => true
  | _ => false

/-- Whether an operation puts pixels on the panel (fill, text or line), as
opposed to setting the text size, colour or cursor. -/
def Op.isDraw : Op → Bool
  | Op.fillScreen _ => true
  | Op.print _ => true
  | Op.printChar _ => true
  | Op.drawFastVLine _ _ _ _ => true
  | _ => false

/-- The operations that the call `f` appends to the trace of `w`. -/
def emitted (f : World → World) (w : World) : List Op := (f w).ops.drop w.ops.length

/-- What one round of the loop of `updateValue` appends, given the two
formatted strings. -/
def diffCell (oldStr newStr : String) (x y gw : Int) (color : Nat) (i : Nat) : List Op :=
  if charAt oldStr i ≠ charAt newStr i then
    cellRedraw (x + (i : Int) * gw) y color (charAt oldStr i) (charAt newStr i)
  else []

/-- The single characters a trace prints, each with the text colour in force
when it is printed; the first argument is the colour in force at the start. -/
def charInk : Nat → List Op → List (Nat × Char)
  | _, [] => []
  | _, Op.setTextColor c :: t => charInk c t
  | c, Op.printChar ch :: t => (c, ch) :: charInk c t
  | c, _ :: t => charInk c t

/-- A panel whose digit glyph is `6 * size` wide and which is 80 high. -/
def samplePanel : Panel := { textW := fun size => 6 * size, height := 80 }

/-- What `drawLabels` appends: the three tags and the divider. -/
def labelOps (p : Panel) : List Op :=
  [Op.setTextColor TEXT_COLOR, Op.setTextSize 1, Op.setCursor 5 5, Op.print "BAT%",
   Op.setCursor 15 45, Op.print "DIS", Op.setCursor 95 5, Op.print "MPH",
   Op.drawFastVLine 50 0 p.height 0x7BEF]

/-- What `showFullScreenAlert` appends: the fill in the alert colour and the
static alert label. -/
def alertScreenOps : List Op :=
  [Op.fillScreen ALERT_COLOR, Op.setTextColor TEXT_COLOR, Op.setTextSize 2,
   Op.setCursor 10 20, Op.print "SAFETY MARGIN"]

/-- What `updateAlertPercentage` appends: the old text and `%` in the alert
colour, then the new text and `%` in the text colour, both from (30, 40). -/
def percentOps (oldValue newValue : Int) : List Op :=
  [Op.setTextSize 5, Op.setTextColor ALERT_COLOR, Op.setCursor 30 40,
   Op.print (alertStr oldValue), Op.print "%", Op.setTextColor TEXT_COLOR,
   Op.setCursor 30 40, Op.print (alertStr newValue), Op.print "%"]

/-- What `updateValue` appends: the text size, then the two digit columns. -/
def valueOps (p : Panel) (o n x y : Int) (color : Nat) (size : Int) : List Op :=
  Op.setTextSize size ::
    (diffCell (twoDigitStr o) (twoDigitStr n) x y (p.textW size) color 0 ++
     diffCell (twoDigitStr o) (twoDigitStr n) x y (p.textW size) color 1)

/-- The colour `updateBattery` passes on for a new value. -/
def batteryBand (n : Int) : Nat :=
  if n > 80 then ST7735_GREEN else if n > 60 then ST7735_YELLOW else ST7735_RED

/-- What `updateSafetyMargin` appends, by case. -/
def marginOps (p : Panel) (o n : Int) (d : Display) : List Op :=
  if n < 15 then
    (if d.inAlertMode then [] else alertScreenOps) ++ percentOps o n
  else if d.inAlertMode then
    Op.fillScreen BACKGROUND_COLOR :: labelOps p ++
      valueOps p 0 d.currentBattery 0 20 (batteryBand d.currentBattery) 3 ++
      valueOps p 0 d.currentSpeed 70 20 TEXT_COLOR 7
  else []

/-- A state in Alert mode, with battery 50, speed 20, distance 12 stored. -/
def alertSample : World :=
  { currentBattery := 50, currentSpeed := 20, currentSafetyMargin := 10, currentDistance := 12
    display := { currentBattery := 50, currentSpeed := 20, inAlertMode := true }
    ops := [] }

/-- A state in Normal mode, with battery 50, speed 31 (50 km/h converted),
safety margin 20 and distance 12 stored. -/
def normalSample : World :=
  { currentBattery := 50, currentSpeed := 31, currentSafetyMargin := 20, currentDistance := 12
    display := { currentBattery := 50, currentSpeed := 31, inAlertMode := false }
    ops := [] }

/-- The `vba` and `vsp` blocks of `parseAndUpdateValues`, in that order: what
runs before the `vsmg` block. -/
def stepsBeforeMargin (p : Panel) (doc : Payload) (w : World) : World :=
  APIManager.stepSpeed p doc (APIManager.stepBattery p doc w)

/-- The state after `setup()` and one parse cycle with the readings
`vba = 22, vsp = 35, vsmg = 20, vdi = 35`: 35 km converts to 22, so the stored
battery, speed and distance are all 22. -/
def laterSample : World :=
  APIManager.parseAndUpdateValues samplePanel
    (some { vba := some 22, vsp := some 35, vsmg := some 20, vdi := some 35 })
    (setup samplePanel boot)

/-- The payload of the first-cycle scenario. -/
def firstPayload : Payload := { vba := some 90, vsp := some 50, vsmg := some 20, vdi := some 5 }

/-- A state in Alert mode whose display cache holds battery 50 and speed 5. -/
def exitSample : World :=
  { currentBattery := 50, currentSpeed := 5, currentSafetyMargin := 10, currentDistance := 12
    display := { currentBattery := 50, currentSpeed := 5, inAlertMode := true }
    ops := [] }

/-- What `setup` appends from the boot state: panel initialisation and
labels, the two connection messages, `clearAndInitialize` on the stored zeros,
then the three draws from the sentinel 22 to 0. -/
def setupOps (p : Panel) : List Op :=
  [Op.initR Display.INITR_MINI160x80, Op.setRotation 1, Op.fillScreen BACKGROUND_COLOR,
   Op.setSPISpeed 20000000] ++ labelOps p ++
  [Op.fillScreen BACKGROUND_COLOR, Op.setTextColor TEXT_COLOR, Op.setTextSize 2,
   Op.setCursor 10 30, Op.print "Connecting.",
   Op.fillScreen BACKGROUND_COLOR, Op.setCursor 10 40, Op.print "Connected :)",
   Op.fillScreen BACKGROUND_COLOR] ++ labelOps p ++
  [Op.setTextSize 3, Op.setTextSize 7, Op.setTextSize 3] ++
  (valueOps p 22 0 0 20 ST7735_RED 3 ++
    (valueOps p 22 0 70 20 TEXT_COLOR 7 ++ valueOps p 22 0 0 60 TEXT_COLOR 3))

/-! ## A model of the screen -/

/-- A model of what the panel shows: the colour of the last full-screen fill,
the text colour, size and cursor, and for each cursor position the glyphs
drawn there and not erased since. -/
structure Screen where
  bg : Nat
  color : Nat
  size : Int
  cx : Int
  cy : Int
  cells : Int × Int → List Char

/-- Drawing one glyph at the cursor: in the colour of the background it
removes that glyph from the cell, in any other colour it adds it; the cursor
then advances by the glyph width. -/
def Screen.glyph (p : Panel) (s : Screen) (ch : Char) : Screen :=
  { s with
    cells := Function.update s.cells (s.cx, s.cy)
      (if s.color = s.bg then (s.cells (s.cx, s.cy)).erase ch
       else ch :: s.cells (s.cx, s.cy))
    cx := s.cx + p.textW s.size }

/-- The effect of one driver call on the screen model.  A fill empties every
cell; the divider line and the configuration calls touch no cell. -/
def Screen.step (p : Panel) (s : Screen) : Op → Screen
  | Op.fillScreen c => { s with bg := c, cells := fun _ => [] }
  | Op.setTextColor c => { s with color := c }
  | Op.setTextSize n => { s with size := n }
  | Op.setCursor x y => { s with cx := x, cy := y }
  | Op.printChar ch => s.glyph p ch
  | Op.print text => text.data.foldl (Screen.glyph p) s
  | _ => s

/-- The screen after a trace. -/
def render (p : Panel) (s : Screen) (ops : List Op) : Screen := ops.foldl (Screen.step p) s

/-- The two digit cells anchored at `(x, y)`, `gw` apart, show the two-digit
form of `v`: one glyph each, the tens digit and the units digit of
`min v 99`. -/
def Screen.shows (s : Screen) (x y gw : Int) (v : Nat) : Prop :=
  s.cells (x, y) = [Nat.digitChar (min v 99 / 10)] ∧
    s.cells (x + gw, y) = [Nat.digitChar (min v 99 % 10)]

instance Screen.decidableShows (s : Screen) (x y gw : Int) (v : Nat) :
    Decidable (s.shows x y gw v) := by
  unfold Screen.shows; infer_instance

/-- A screen on the background colour whose Battery cells show 22. -/
def sampleScreen : Screen :=
  { bg := BACKGROUND_COLOR, color := TEXT_COLOR, size := 1, cx := 0, cy := 0
    cells := fun q => if q = (0, 20) then ['2'] else if q = (18, 20) then ['2'] else [] }

/-! ## Lemmas: string formatting -/

theorem repr_data_lt_100 :
    ∀ k : Fin 100, (Nat.repr k.val).data =
      if k.val < 10 then [Nat.digitChar k.val] else pad2 k.val := by decide

theorem intToString_natCast (k : Nat) : intToString (k : Int) = Nat.repr k := rfl

theorem twoDigitStr_data (k : Nat) : (twoDigitStr (k : Int)).data = pad2 (min k 99) := by
  unfold twoDigitStr
  by_cases h : k < 10
  · have h1 : ((k : Int) < 10) := by exact_mod_cast h
    have h2 := repr_data_lt_100 ⟨k, by omega⟩
    simp only [h, if_true] at h2
    rw [if_pos h1, String.data_append, intToString_natCast, h2]
    have h3 : min k 99 = k := by omega
    rw [h3]
    simp [pad2, Nat.div_eq_of_lt h, Nat.mod_eq_of_lt h]
    rfl
  · have h1 : ¬ ((k : Int) < 10) := by exact_mod_cast h
    have h4 : min (k : Int) 99 = ((min k 99 : Nat) : Int) := by
      simp
    have h2 := repr_data_lt_100 ⟨min k 99, by omega⟩
    have h5 : ¬ (min k 99 < 10) := by omega
    simp only [h5, if_false] at h2
    rw [if_neg h1, h4, intToString_natCast, h2]

theorem digitChar_inj :
    ∀ a b : Fin 10, Nat.digitChar a.val = Nat.digitChar b.val → a = b := by
  decide

theorem digitChar_ne_iff (a b : Nat) (ha : a < 10) (hb : b < 10) :
    Nat.digitChar a ≠ Nat.digitChar b ↔ a ≠ b := by
  constructor
  · intro h e; exact h (by rw [e])
  · intro h e
    have := digitChar_inj ⟨a, ha⟩ ⟨b, hb⟩ e
    exact h (by simpa using this)

theorem charAt_twoDigitStr_zero (k : Nat) :
    charAt (twoDigitStr (k : Int)) 0 = Nat.digitChar (min k 99 / 10) := by
  simp [charAt, twoDigitStr_data, pad2]

theorem charAt_twoDigitStr_one (k : Nat) :
    charAt (twoDigitStr (k : Int)) 1 = Nat.digitChar (min k 99 % 10) := by
  simp [charAt, twoDigitStr_data, pad2]

/-! ## Lemmas: what each method appends to the trace -/

theorem emitted_of_ops {f : World → World} {w : World} {l : List Op}
    (h : (f w).ops = w.ops ++ l) : emitted f w = l := by
  simp [emitted, h]

theorem updateValueStep_eq (oldStr newStr : String) (x y gw : Int) (color : Nat)
    (w : World) (i : Nat) :
    Display.updateValueStep oldStr newStr x y gw color w i =
      { w with ops := w.ops ++ diffCell oldStr newStr x y gw color i } := by
  unfold Display.updateValueStep diffCell
  split
  · simp [tft.setTextColor, tft.setCursor, tft.printChar, emit, cellRedraw]
  · simp

theorem updateValue_eq (p : Panel) (o n x y : Int) (color : Nat) (size : Int) (w : World) :
    Display.updateValue p o n x y color size w =
      { w with ops := w.ops ++ Op.setTextSize size ::
          (diffCell (twoDigitStr o) (twoDigitStr n) x y (p.textW size) color 0 ++
           diffCell (twoDigitStr o) (twoDigitStr n) x y (p.textW size) color 1) } := by
  simp [Display.updateValue, List.range_succ, updateValueStep_eq, tft.setTextSize, emit]

theorem diffCell_zero (o n : Nat) (x y gw : Int) (color : Nat) :
    diffCell (twoDigitStr o) (twoDigitStr n) x y gw color 0 =
      if min o 99 / 10 ≠ min n 99 / 10 then
        cellRedraw x y color (Nat.digitChar (min o 99 / 10)) (Nat.digitChar (min n 99 / 10))
      else [] := by
  unfold diffCell
  rw [charAt_twoDigitStr_zero, charAt_twoDigitStr_zero,
    if_congr (digitChar_ne_iff _ _ (by omega) (by omega)) rfl rfl]
  simp

theorem diffCell_one (o n : Nat) (x y gw : Int) (color : Nat) :
    diffCell (twoDigitStr o) (twoDigitStr n) x y gw color 1 =
      if min o 99 % 10 ≠ min n 99 % 10 then
        cellRedraw (x + gw) y color (Nat.digitChar (min o 99 % 10))
          (Nat.digitChar (min n 99 % 10))
      else [] := by
  unfold diffCell
  rw [charAt_twoDigitStr_one, charAt_twoDigitStr_one,
    if_congr (digitChar_ne_iff _ _ (by omega) (by omega)) rfl rfl]
  simp

theorem updateValue_ops_nat (p : Panel) (o n : Nat) (x y : Int) (color : Nat) (size : Int)
    (w : World) :
    (Display.updateValue p o n x y color size w).ops = w.ops ++ Op.setTextSize size ::
      ((if min o 99 / 10 ≠ min n 99 / 10 then
          cellRedraw x y color (Nat.digitChar (min o 99 / 10)) (Nat.digitChar (min n 99 / 10))
        else []) ++
       (if min o 99 % 10 ≠ min n 99 % 10 then
          cellRedraw (x + p.textW size) y color (Nat.digitChar (min o 99 % 10))
            (Nat.digitChar (min n 99 % 10))
        else [])) := by
  rw [updateValue_eq, diffCell_zero, diffCell_one]

theorem drawLabels_eq (p : Panel) (w : World) :
    Display.drawLabels p w = { w with ops := w.ops ++ labelOps p } := by
  simp [Display.drawLabels, labelOps, tft.setTextColor, tft.setTextSize, tft.setCursor,
    tft.print, tft.drawFastVLine, emit]

theorem showFullScreenAlert_eq (w : World) :
    Display.showFullScreenAlert w = { w with ops := w.ops ++ alertScreenOps } := by
  simp [Display.showFullScreenAlert, alertScreenOps, tft.setTextColor, tft.setTextSize,
    tft.setCursor, tft.print, tft.fillScreen, emit]

theorem updateAlertPercentage_eq (o n : Int) (w : World) :
    Display.updateAlertPercentage o n w = { w with ops := w.ops ++ percentOps o n } := by
  simp [Display.updateAlertPercentage, percentOps, tft.setTextColor, tft.setTextSize,
    tft.setCursor, tft.print, emit]

theorem updateValue_eq_valueOps (p : Panel) (o n x y : Int) (color : Nat) (size : Int)
    (w : World) :
    Display.updateValue p o n x y color size w =
      { w with ops := w.ops ++ valueOps p o n x y color size } :=
  updateValue_eq p o n x y color size w

theorem updateBattery_eq (p : Panel) (o n : Int) (w : World) :
    Display.updateBattery p o n w =
      { w with ops := w.ops ++
          if w.display.inAlertMode then [] else valueOps p o n 0 20 (batteryBand n) 3 } := by
  unfold Display.updateBattery batteryBand
  cases h : w.display.inAlertMode
  · simp [updateValue_eq_valueOps]; split_ifs <;> rfl
  · simp

theorem updateSpeed_eq (p : Panel) (o n : Int) (w : World) :
    Display.updateSpeed p o n w =
      { w with ops := w.ops ++
          if w.display.inAlertMode then [] else valueOps p o n 70 20 TEXT_COLOR 7 } := by
  unfold Display.updateSpeed
  cases h : w.display.inAlertMode <;> simp [updateValue_eq_valueOps]

theorem updateDistance_eq (p : Panel) (o n : Int) (w : World) :
    Display.updateDistance p o n w =
      { w with ops := w.ops ++
          if w.display.inAlertMode then [] else valueOps p o n 0 60 TEXT_COLOR 3 } := by
  unfold Display.updateDistance
  cases h : w.display.inAlertMode <;> simp [updateValue_eq_valueOps]

theorem updateSafetyMargin_eq (p : Panel) (o n : Int) (w : World) :
    Display.updateSafetyMargin p o n w =
      { w with
        display := { w.display with inAlertMode := decide (n < 15) }
        ops := w.ops ++ marginOps p o n w.display } := by
  unfold Display.updateSafetyMargin marginOps Display.SAFETY_THRESHOLD
  rcases w with ⟨b, s, m, d, ⟨db, ds, a⟩, ops⟩
  by_cases h : n < 15 <;> cases a <;>
    simp [h, Display.setAlertMode, showFullScreenAlert_eq, updateAlertPercentage_eq,
      drawLabels_eq, updateBattery_eq, updateSpeed_eq, tft.fillScreen, emit]

theorem filter_isFill_diffCell (a b : String) (x y gw : Int) (c i : Nat) :
    (diffCell a b x y gw c i).filter Op.isFill = [] := by
  unfold diffCell
  split <;> simp [cellRedraw, Op.isFill]

theorem filter_isFill_valueOps (p : Panel) (o n x y : Int) (c : Nat) (size : Int) :
    (valueOps p o n x y c size).filter Op.isFill = [] := by
  simp [valueOps, filter_isFill_diffCell, Op.isFill]

theorem filter_isFill_percentOps (o n : Int) : (percentOps o n).filter Op.isFill = [] := by
  simp [percentOps, Op.isFill]

theorem filter_isFill_labelOps (p : Panel) : (labelOps p).filter Op.isFill = [] := by
  simp [labelOps, Op.isFill]

theorem emitted_updateSafetyMargin (p : Panel) (o n : Int) (w : World) :
    emitted (Display.updateSafetyMargin p o n) w = marginOps p o n w.display :=
  emitted_of_ops (by rw [updateSafetyMargin_eq])

theorem setCursor_mem_diffCell {a b : String} {x y gw : Int} {c i : Nat} {cx cy : Int}
    (h : Op.setCursor cx cy ∈ diffCell a b x y gw c i) : cy = y := by
  unfold diffCell at h
  split at h
  · simp only [cellRedraw, List.mem_cons, Op.setCursor.injEq, List.mem_nil_iff] at h
    rcases h with h | h | h | h | h | h | h
    · cases h
    · exact h.2
    · cases h
    · cases h
    · exact h.2
    · cases h
    · exact h.elim
  · simp at h

theorem setCursor_mem_valueOps {p : Panel} {o n x y : Int} {c : Nat} {size cx cy : Int}
    (h : Op.setCursor cx cy ∈ valueOps p o n x y c size) : cy = y := by
  simp only [valueOps, List.mem_cons, List.mem_append] at h
  rcases h with h | h | h
  · cases h
  · exact setCursor_mem_diffCell h
  · exact setCursor_mem_diffCell h

theorem emitted_clearAndInitialize (p : Panel) (w : World) :
    emitted (Display.clearAndInitialize p) w =
      Op.fillScreen BACKGROUND_COLOR :: labelOps p ++
        ((if w.display.inAlertMode then []
          else valueOps p 0 w.display.currentBattery 0 20
            (batteryBand w.display.currentBattery) 3) ++
         (if w.display.inAlertMode then []
          else valueOps p 0 w.display.currentSpeed 70 20 TEXT_COLOR 7) ++
         (if w.display.inAlertMode then []
          else valueOps p 0 w.currentDistance 0 60 TEXT_COLOR 3)) := by
  apply emitted_of_ops
  simp [Display.clearAndInitialize, drawLabels_eq, updateBattery_eq, updateSpeed_eq,
    updateDistance_eq, tft.fillScreen, emit]

theorem stepBattery_eq (p : Panel) (doc : Payload) (w : World) :
    APIManager.stepBattery p doc w =
      match doc.vba with
      | some b =>
        if b ≠ w.currentBattery then
          { w with
            currentBattery := b
            ops := w.ops ++
              if w.display.inAlertMode then [] else valueOps p w.currentBattery b 0 20
                (batteryBand b) 3 }
        else w
      | none => w := by
  unfold APIManager.stepBattery
  cases doc.vba <;> simp [updateBattery_eq]

theorem stepSpeed_eq (p : Panel) (doc : Payload) (w : World) :
    APIManager.stepSpeed p doc w =
      match doc.vsp with
      | some r =>
        if r ≠ w.currentSpeed then
          { w with
            currentSpeed := kmToMi r
            ops := w.ops ++
              if w.display.inAlertMode then [] else valueOps p w.currentSpeed (kmToMi r) 70 20
                TEXT_COLOR 7 }
        else w
      | none => w := by
  unfold APIManager.stepSpeed
  cases doc.vsp <;> simp [updateSpeed_eq]

theorem stepDistance_eq (p : Panel) (doc : Payload) (w : World) :
    APIManager.stepDistance p doc w =
      match doc.vdi with
      | some r =>
        if r ≠ w.currentDistance then
          { w with
            currentDistance := kmToMi r
            ops := w.ops ++
              if w.display.inAlertMode then [] else valueOps p w.currentDistance (kmToMi r) 0 60
                TEXT_COLOR 3 }
        else w
      | none => w := by
  unfold APIManager.stepDistance
  cases doc.vdi <;> simp [updateDistance_eq]

theorem stepSafetyMargin_eq (p : Panel) (doc : Payload) (w : World) :
    APIManager.stepSafetyMargin p doc w =
      match doc.vsmg with
      | some m =>
        if m ≠ w.currentSafetyMargin then
          { w with
            currentSafetyMargin := m
            display := { w.display with inAlertMode := decide (m < 15) }
            ops := w.ops ++ marginOps p w.currentSafetyMargin m w.display }
        else w
      | none => w := by
  unfold APIManager.stepSafetyMargin
  cases doc.vsmg <;> simp [updateSafetyMargin_eq]

theorem isFill_of_mem_valueOps {p : Panel} {o n x y : Int} {c : Nat} {size : Int} {a : Op}
    (h : a ∈ valueOps p o n x y c size) : a.isFill = false := by
  have h1 := filter_isFill_valueOps p o n x y c size
  rw [List.filter_eq_nil_iff] at h1
  simpa using h1 a h

theorem stepBattery_frame (p : Panel) (doc : Payload) (w : World) :
    (APIManager.stepBattery p doc w).display = w.display ∧
      (APIManager.stepBattery p doc w).currentSafetyMargin = w.currentSafetyMargin ∧
      (APIManager.stepBattery p doc w).currentSpeed = w.currentSpeed ∧
      (APIManager.stepBattery p doc w).currentDistance = w.currentDistance ∧
      ∃ l, (APIManager.stepBattery p doc w).ops = w.ops ++ l ∧ l.filter Op.isFill = [] ∧
        (w.display.inAlertMode = true → l = []) := by
  have hskip : APIManager.stepBattery p doc w = w →
      (APIManager.stepBattery p doc w).display = w.display ∧
      (APIManager.stepBattery p doc w).currentSafetyMargin = w.currentSafetyMargin ∧
      (APIManager.stepBattery p doc w).currentSpeed = w.currentSpeed ∧
      (APIManager.stepBattery p doc w).currentDistance = w.currentDistance ∧
      ∃ l, (APIManager.stepBattery p doc w).ops = w.ops ++ l ∧ l.filter Op.isFill = [] ∧
        (w.display.inAlertMode = true → l = []) := by
    intro e
    rw [e]
    exact ⟨rfl, rfl, rfl, rfl, [], by simp, rfl, fun _ => rfl⟩
  cases hv : doc.vba with
  | none => exact hskip (by rw [stepBattery_eq, hv])
  | some b =>
    by_cases hb : b = w.currentBattery
    · exact hskip (by rw [stepBattery_eq, hv]; simp [hb])
    · have e : APIManager.stepBattery p doc w =
          { w with
            currentBattery := b
            ops := w.ops ++
              if w.display.inAlertMode then [] else valueOps p w.currentBattery b 0 20
                (batteryBand b) 3 } := by
        rw [stepBattery_eq, hv]; simp [hb]
      rw [e]
      refine ⟨rfl, rfl, rfl, rfl, _, rfl, ?_, ?_⟩
      · split
        · rfl
        · exact filter_isFill_valueOps _ _ _ _ _ _ _
      · intro ha; simp [ha]

theorem stepSpeed_frame (p : Panel) (doc : Payload) (w : World) :
    (APIManager.stepSpeed p doc w).display = w.display ∧
      (APIManager.stepSpeed p doc w).currentSafetyMargin = w.currentSafetyMargin ∧
      (APIManager.stepSpeed p doc w).currentBattery = w.currentBattery ∧
      (APIManager.stepSpeed p doc w).currentDistance = w.currentDistance ∧
      ∃ l, (APIManager.stepSpeed p doc w).ops = w.ops ++ l ∧ l.filter Op.isFill = [] ∧
        (w.display.inAlertMode = true → l = []) := by
  have hskip : APIManager.stepSpeed p doc w = w →
      (APIManager.stepSpeed p doc w).display = w.display ∧
      (APIManager.stepSpeed p doc w).currentSafetyMargin = w.currentSafetyMargin ∧
      (APIManager.stepSpeed p doc w).currentBattery = w.currentBattery ∧
      (APIManager.stepSpeed p doc w).currentDistance = w.currentDistance ∧
      ∃ l, (APIManager.stepSpeed p doc w).ops = w.ops ++ l ∧ l.filter Op.isFill = [] ∧
        (w.display.inAlertMode = true → l = []) := by
    intro e
    rw [e]
    exact ⟨rfl, rfl, rfl, rfl, [], by simp, rfl, fun _ => rfl⟩
  cases hv : doc.vsp with
  | none => exact hskip (by rw [stepSpeed_eq, hv])
  | some b =>
    by_cases hb : b = w.currentSpeed
    · exact hskip (by rw [stepSpeed_eq, hv]; simp [hb])
    · have e : APIManager.stepSpeed p doc w =
          { w with
            currentSpeed := kmToMi b
            ops := w.ops ++
              if w.display.inAlertMode then [] else valueOps p w.currentSpeed (kmToMi b) 70 20
                TEXT_COLOR 7 } := by
        rw [stepSpeed_eq, hv]; simp [hb]
      rw [e]
      refine ⟨rfl, rfl, rfl, rfl, _, rfl, ?_, ?_⟩
      · split
        · rfl
        · exact filter_isFill_valueOps _ _ _ _ _ _ _
      · intro ha; simp [ha]

theorem stepDistance_frame (p : Panel) (doc : Payload) (w : World) :
    (APIManager.stepDistance p doc w).display = w.display ∧
      (APIManager.stepDistance p doc w).currentSafetyMargin = w.currentSafetyMargin ∧
      (APIManager.stepDistance p doc w).currentBattery = w.currentBattery ∧
      (APIManager.stepDistance p doc w).currentSpeed = w.currentSpeed ∧
      ∃ l, (APIManager.stepDistance p doc w).ops = w.ops ++ l ∧ l.filter Op.isFill = [] ∧
        (w.display.inAlertMode = true → l = []) := by
  have hskip : APIManager.stepDistance p doc w = w →
      (APIManager.stepDistance p doc w).display = w.display ∧
      (APIManager.stepDistance p doc w).currentSafetyMargin = w.currentSafetyMargin ∧
      (APIManager.stepDistance p doc w).currentBattery = w.currentBattery ∧
      (APIManager.stepDistance p doc w).currentSpeed = w.currentSpeed ∧
      ∃ l, (APIManager.stepDistance p doc w).ops = w.ops ++ l ∧ l.filter Op.isFill = [] ∧
        (w.display.inAlertMode = true → l = []) := by
    intro e
    rw [e]
    exact ⟨rfl, rfl, rfl, rfl, [], by simp, rfl, fun _ => rfl⟩
  cases hv : doc.vdi with
  | none => exact hskip (by rw [stepDistance_eq, hv])
  | some b =>
    by_cases hb : b = w.currentDistance
    · exact hskip (by rw [stepDistance_eq, hv]; simp [hb])
    · have e : APIManager.stepDistance p doc w =
          { w with
            currentDistance := kmToMi b
            ops := w.ops ++
              if w.display.inAlertMode then [] else valueOps p w.currentDistance (kmToMi b) 0 60
                TEXT_COLOR 3 } := by
        rw [stepDistance_eq, hv]; simp [hb]
      rw [e]
      refine ⟨rfl, rfl, rfl, rfl, _, rfl, ?_, ?_⟩
      · split
        · rfl
        · exact filter_isFill_valueOps _ _ _ _ _ _ _
      · intro ha; simp [ha]

theorem stepsBeforeMargin_frame (p : Panel) (doc : Payload) (w : World) :
    (stepsBeforeMargin p doc w).display = w.display ∧
      (stepsBeforeMargin p doc w).currentSafetyMargin = w.currentSafetyMargin ∧
      (stepsBeforeMargin p doc w).ops = w.ops ++ emitted (stepsBeforeMargin p doc) w ∧
      (emitted (stepsBeforeMargin p doc) w).filter Op.isFill = [] := by
  obtain ⟨a1, a2, _, _, l1, a3, a4, _⟩ := stepBattery_frame p doc w
  obtain ⟨b1, b2, _, _, l2, b3, b4, _⟩ := stepSpeed_frame p doc (APIManager.stepBattery p doc w)
  have hops : (stepsBeforeMargin p doc w).ops = w.ops ++ (l1 ++ l2) := by
    unfold stepsBeforeMargin
    rw [b3, a3, List.append_assoc]
  have hem := emitted_of_ops hops
  refine ⟨?_, ?_, ?_, ?_⟩
  · unfold stepsBeforeMargin; rw [b1, a1]
  · unfold stepsBeforeMargin; rw [b2, a2]
  · rw [hem, hops]
  · rw [hem, List.filter_append, a4, b4]; rfl

theorem stepSafetyMargin_changed (p : Panel) (doc : Payload) (m : Int) (w : World)
    (hd : doc.vsmg = some m) (hne : m ≠ w.currentSafetyMargin) :
    APIManager.stepSafetyMargin p doc w =
      { w with
        currentSafetyMargin := m
        display := { w.display with inAlertMode := decide (m < 15) }
        ops := w.ops ++ marginOps p w.currentSafetyMargin m w.display } := by
  rw [stepSafetyMargin_eq, hd]
  simp only [ne_eq, hne, not_false_eq_true, if_true]

theorem parse_some (p : Panel) (doc : Payload) (w : World) :
    APIManager.parseAndUpdateValues p (some doc) w =
      Display.setCurrentValues
        (APIManager.stepDistance p doc
          (APIManager.stepSafetyMargin p doc (stepsBeforeMargin p doc w))).currentBattery
        (APIManager.stepDistance p doc
          (APIManager.stepSafetyMargin p doc (stepsBeforeMargin p doc w))).currentSpeed
        (APIManager.stepDistance p doc
          (APIManager.stepSafetyMargin p doc (stepsBeforeMargin p doc w))).currentDistance
        (APIManager.stepDistance p doc
          (APIManager.stepSafetyMargin p doc (stepsBeforeMargin p doc w))) := rfl

theorem setCurrentValues_ops (b s d : Int) (w : World) :
    (Display.setCurrentValues b s d w).ops = w.ops := rfl

theorem setCurrentValues_mode (b s d : Int) (w : World) :
    (Display.setCurrentValues b s d w).display.inAlertMode = w.display.inAlertMode := rfl

theorem stepSafetyMargin_same (p : Panel) (doc : Payload) (w : World)
    (hd : doc.vsmg = some w.currentSafetyMargin) : APIManager.stepSafetyMargin p doc w = w := by
  rw [stepSafetyMargin_eq, hd]
  simp

theorem mode_tracks_margin_of_consistent (p : Panel) (doc : Payload) (m : Int) (w : World)
    (hinv : w.display.inAlertMode = decide (w.currentSafetyMargin < 15))
    (hd : doc.vsmg = some m) :
    (APIManager.parseAndUpdateValues p (some doc) w).display.inAlertMode = decide (m < 15) := by
  obtain ⟨f1, f2, -, -⟩ := stepsBeforeMargin_frame p doc w
  obtain ⟨d1, -⟩ :=
    stepDistance_frame p doc (APIManager.stepSafetyMargin p doc (stepsBeforeMargin p doc w))
  rw [parse_some, setCurrentValues_mode, d1]
  by_cases hm : m = w.currentSafetyMargin
  · rw [stepSafetyMargin_same p doc _ (by rw [f2, hd, hm]), f1, hinv, hm]
  · rw [stepSafetyMargin_changed p doc m _ hd (by rw [f2]; exact hm)]

theorem kmToMi_samples :
    kmToMi 100 = 62 ∧ kmToMi 10 = 6 ∧ kmToMi 50 = 31 ∧ kmToMi 5 = 3 ∧ kmToMi 31 = 19 := by
  decide

theorem diffCell_same (a : String) (x y gw : Int) (c i : Nat) : diffCell a a x y gw c i = [] := by
  simp [diffCell]

theorem valueOps_same (p : Panel) (v x y : Int) (c : Nat) (size : Int) :
    valueOps p v v x y c size = [Op.setTextSize size] := by
  simp [valueOps, diffCell_same]

theorem stepBattery_own (p : Panel) (doc : Payload) (w : World) (b : Int)
    (h : doc.vba = some b) : (APIManager.stepBattery p doc w).currentBattery = b := by
  rw [stepBattery_eq, h]
  by_cases hb : b = w.currentBattery
  · simp [hb]
  · simp [hb]

theorem stepSpeed_own (p : Panel) (doc : Payload) (w : World) (r : Int)
    (h : doc.vsp = some r) :
    (APIManager.stepSpeed p doc w).currentSpeed = r ∨
      (APIManager.stepSpeed p doc w).currentSpeed = kmToMi r := by
  rw [stepSpeed_eq, h]
  by_cases hb : r = w.currentSpeed
  · left; simp [hb]
  · right; simp [hb]

theorem stepDistance_own (p : Panel) (doc : Payload) (w : World) (r : Int)
    (h : doc.vdi = some r) :
    (APIManager.stepDistance p doc w).currentDistance = r ∨
      (APIManager.stepDistance p doc w).currentDistance = kmToMi r := by
  rw [stepDistance_eq, h]
  by_cases hb : r = w.currentDistance
  · left; simp [hb]
  · right; simp [hb]

theorem stepSafetyMargin_own (p : Panel) (doc : Payload) (w : World) (m : Int)
    (h : doc.vsmg = some m) : (APIManager.stepSafetyMargin p doc w).currentSafetyMargin = m := by
  rw [stepSafetyMargin_eq, h]
  by_cases hb : m = w.currentSafetyMargin
  · simp [hb]
  · simp [hb]

theorem stepSafetyMargin_frame (p : Panel) (doc : Payload) (w : World) :
    (APIManager.stepSafetyMargin p doc w).currentBattery = w.currentBattery ∧
      (APIManager.stepSafetyMargin p doc w).currentSpeed = w.currentSpeed ∧
      (APIManager.stepSafetyMargin p doc w).currentDistance = w.currentDistance ∧
      (APIManager.stepSafetyMargin p doc w).display.currentBattery = w.display.currentBattery ∧
      (APIManager.stepSafetyMargin p doc w).display.currentSpeed = w.display.currentSpeed := by
  rw [stepSafetyMargin_eq]
  cases doc.vsmg with
  | none => exact ⟨rfl, rfl, rfl, rfl, rfl⟩
  | some m =>
    by_cases hb : m = w.currentSafetyMargin
    · simp [hb]
    · simp [hb]

theorem parse_synced (p : Panel) (doc : Payload) (w : World) :
    (APIManager.parseAndUpdateValues p (some doc) w).display.currentBattery =
        (APIManager.parseAndUpdateValues p (some doc) w).currentBattery ∧
      (APIManager.parseAndUpdateValues p (some doc) w).display.currentSpeed =
        (APIManager.parseAndUpdateValues p (some doc) w).currentSpeed := ⟨rfl, rfl⟩

theorem parse_fields (p : Panel) (doc : Payload) (w : World) :
    (APIManager.parseAndUpdateValues p (some doc) w).currentBattery =
        (APIManager.stepBattery p doc w).currentBattery ∧
      (APIManager.parseAndUpdateValues p (some doc) w).currentSpeed =
        (stepsBeforeMargin p doc w).currentSpeed ∧
      (APIManager.parseAndUpdateValues p (some doc) w).currentSafetyMargin =
        (APIManager.stepSafetyMargin p doc (stepsBeforeMargin p doc w)).currentSafetyMargin ∧
      (APIManager.parseAndUpdateValues p (some doc) w).currentDistance =
        (APIManager.stepDistance p doc
          (APIManager.stepSafetyMargin p doc (stepsBeforeMargin p doc w))).currentDistance := by
  obtain ⟨-, -, b3, -, -⟩ := stepBattery_frame p doc w
  obtain ⟨-, -, s3, -, -⟩ := stepSpeed_frame p doc (APIManager.stepBattery p doc w)
  obtain ⟨m1, m2, -, -, -⟩ := stepSafetyMargin_frame p doc (stepsBeforeMargin p doc w)
  obtain ⟨-, d2, d3, d4, -⟩ := stepDistance_frame p doc
    (APIManager.stepSafetyMargin p doc (stepsBeforeMargin p doc w))
  rw [parse_some]
  refine ⟨?_, ?_, ?_, rfl⟩
  · show (APIManager.stepDistance p doc _).currentBattery = _
    rw [d3, m1]; unfold stepsBeforeMargin; rw [s3]
  · show (APIManager.stepDistance p doc _).currentSpeed = _
    rw [d4, m2]
  · show (APIManager.stepDistance p doc _).currentSafetyMargin = _
    rw [d2]


theorem stepSpeed_settled (p : Panel) (doc : Payload) (v : World)
    (h : ∀ r, doc.vsp = some r → v.currentSpeed = r ∨ v.currentSpeed = kmToMi r) :
    ∃ l, APIManager.stepSpeed p doc v = { v with ops := v.ops ++ l } ∧
      l.filter Op.isDraw = [] := by
  rw [stepSpeed_eq]
  cases hv : doc.vsp with
  | none => exact ⟨[], by simp, rfl⟩
  | some r =>
    by_cases hb : r = v.currentSpeed
    · exact ⟨[], by simp [hb], rfl⟩
    · have h2 : v.currentSpeed = kmToMi r := by
        rcases h r hv with h1 | h1
        · exact absurd h1.symm hb
        · exact h1
      refine ⟨if v.display.inAlertMode then [] else [Op.setTextSize 7], ?_, ?_⟩
      · simp only [ne_eq, hb, not_false_eq_true, if_true]
        rw [← h2, valueOps_same]
      · split <;> simp [Op.isDraw]

theorem stepDistance_settled (p : Panel) (doc : Payload) (v : World)
    (h : ∀ r, doc.vdi = some r → v.currentDistance = r ∨ v.currentDistance = kmToMi r) :
    ∃ l, APIManager.stepDistance p doc v = { v with ops := v.ops ++ l } ∧
      l.filter Op.isDraw = [] := by
  rw [stepDistance_eq]
  cases hv : doc.vdi with
  | none => exact ⟨[], by simp, rfl⟩
  | some r =>
    by_cases hb : r = v.currentDistance
    · exact ⟨[], by simp [hb], rfl⟩
    · have h2 : v.currentDistance = kmToMi r := by
        rcases h r hv with h1 | h1
        · exact absurd h1.symm hb
        · exact h1
      refine ⟨if v.display.inAlertMode then [] else [Op.setTextSize 3], ?_, ?_⟩
      · simp only [ne_eq, hb, not_false_eq_true, if_true]
        rw [← h2, valueOps_same]
      · split <;> simp [Op.isDraw]

theorem stepBattery_settled (p : Panel) (doc : Payload) (v : World)
    (h : ∀ b, doc.vba = some b → v.currentBattery = b) :
    APIManager.stepBattery p doc v = v := by
  rw [stepBattery_eq]
  cases hv : doc.vba with
  | none => rfl
  | some b => simp [h b hv]

theorem stepSafetyMargin_settled (p : Panel) (doc : Payload) (v : World)
    (h : ∀ m, doc.vsmg = some m → v.currentSafetyMargin = m) :
    APIManager.stepSafetyMargin p doc v = v := by
  rw [stepSafetyMargin_eq]
  cases hv : doc.vsmg with
  | none => rfl
  | some b => simp [h b hv]

theorem parse_settled (p : Panel) (doc : Payload) (v : World)
    (h1 : ∀ b, doc.vba = some b → v.currentBattery = b)
    (h2 : ∀ r, doc.vsp = some r → v.currentSpeed = r ∨ v.currentSpeed = kmToMi r)
    (h3 : ∀ m, doc.vsmg = some m → v.currentSafetyMargin = m)
    (h4 : ∀ r, doc.vdi = some r → v.currentDistance = r ∨ v.currentDistance = kmToMi r)
    (h5 : v.display.currentBattery = v.currentBattery)
    (h6 : v.display.currentSpeed = v.currentSpeed) :
    ∃ l, APIManager.parseAndUpdateValues p (some doc) v = { v with ops := v.ops ++ l } ∧
      l.filter Op.isDraw = [] := by
  obtain ⟨l2, e2, q2⟩ := stepSpeed_settled p doc v h2
  obtain ⟨l4, e4, q4⟩ := stepDistance_settled p doc { v with ops := v.ops ++ l2 } h4
  have e3 := stepSafetyMargin_settled p doc { v with ops := v.ops ++ l2 } h3
  refine ⟨l2 ++ l4, ?_, by rw [List.filter_append, q2, q4]; rfl⟩
  rw [parse_some]
  unfold stepsBeforeMargin
  rw [stepBattery_settled p doc v h1, e2, e3, e4]
  rcases v with ⟨b, s, m, d, ⟨db, ds, a⟩, ops⟩
  simp only at h5 h6
  subst h5 h6
  simp [Display.setCurrentValues, List.append_assoc]

theorem valueOps_nat (p : Panel) (o n : Nat) (x y : Int) (color : Nat) (size : Int) :
    valueOps p o n x y color size = Op.setTextSize size ::
      ((if min o 99 / 10 ≠ min n 99 / 10 then
          cellRedraw x y color (Nat.digitChar (min o 99 / 10)) (Nat.digitChar (min n 99 / 10))
        else []) ++
       (if min o 99 % 10 ≠ min n 99 % 10 then
          cellRedraw (x + p.textW size) y color (Nat.digitChar (min o 99 % 10))
            (Nat.digitChar (min n 99 % 10))
        else [])) := by
  rw [valueOps, diffCell_zero, diffCell_one]

theorem alertStr_data (k : Nat) (h : k ≤ 99) : (alertStr (k : Int)).data = pad2 k := by
  unfold alertStr
  have h2 := repr_data_lt_100 ⟨k, by omega⟩
  by_cases h10 : k < 10
  · have h1 : ((k : Int) < 10) := by exact_mod_cast h10
    simp only [h10, if_true] at h2
    rw [if_pos h1, String.data_append, intToString_natCast, h2]
    simp [pad2, Nat.div_eq_of_lt h10, Nat.mod_eq_of_lt h10]
    rfl
  · have h1 : ¬ ((k : Int) < 10) := by exact_mod_cast h10
    simp only [h10, if_false] at h2
    rw [if_neg h1, intToString_natCast, h2]

theorem parse_empty (p : Panel) (w : World) :
    APIManager.parseAndUpdateValues p
        (some { vba := none, vsp := none, vsmg := none, vdi := none }) w =
      Display.setCurrentValues w.currentBattery w.currentSpeed w.currentDistance w := rfl

theorem ops_eq_append_emitted {f : World → World} {v : World}
    (h : ∃ l, (f v).ops = v.ops ++ l) : (f v).ops = v.ops ++ emitted f v := by
  obtain ⟨l, hl⟩ := h
  rw [emitted_of_ops hl, hl]

theorem stepBattery_ops (p : Panel) (doc : Payload) (v : World) :
    (APIManager.stepBattery p doc v).ops = v.ops ++ emitted (APIManager.stepBattery p doc) v := by
  obtain ⟨-, -, -, -, l, h, -⟩ := stepBattery_frame p doc v
  exact ops_eq_append_emitted ⟨l, h⟩

theorem stepSpeed_ops (p : Panel) (doc : Payload) (v : World) :
    (APIManager.stepSpeed p doc v).ops = v.ops ++ emitted (APIManager.stepSpeed p doc) v := by
  obtain ⟨-, -, -, -, l, h, -⟩ := stepSpeed_frame p doc v
  exact ops_eq_append_emitted ⟨l, h⟩

theorem stepDistance_ops (p : Panel) (doc : Payload) (v : World) :
    (APIManager.stepDistance p doc v).ops =
      v.ops ++ emitted (APIManager.stepDistance p doc) v := by
  obtain ⟨-, -, -, -, l, h, -⟩ := stepDistance_frame p doc v
  exact ops_eq_append_emitted ⟨l, h⟩

theorem stepSafetyMargin_ops (p : Panel) (doc : Payload) (v : World) :
    (APIManager.stepSafetyMargin p doc v).ops =
      v.ops ++ emitted (APIManager.stepSafetyMargin p doc) v := by
  apply ops_eq_append_emitted
  rw [stepSafetyMargin_eq]
  cases doc.vsmg with
  | none => exact ⟨[], by simp⟩
  | some m =>
    by_cases hm : m = v.currentSafetyMargin
    · exact ⟨[], by simp [hm]⟩
    · exact ⟨marginOps p v.currentSafetyMargin m v.display, by simp [hm]⟩

theorem parse_emitted (p : Panel) (doc : Payload) (w : World) :
    emitted (APIManager.parseAndUpdateValues p (some doc)) w =
      emitted (APIManager.stepBattery p doc) w ++
        (emitted (APIManager.stepSpeed p doc) (APIManager.stepBattery p doc w) ++
          (emitted (APIManager.stepSafetyMargin p doc) (stepsBeforeMargin p doc w) ++
            emitted (APIManager.stepDistance p doc)
              (APIManager.stepSafetyMargin p doc (stepsBeforeMargin p doc w)))) := by
  apply emitted_of_ops
  rw [parse_some, setCurrentValues_ops, stepDistance_ops, stepSafetyMargin_ops]
  unfold stepsBeforeMargin
  rw [stepSpeed_ops, stepBattery_ops]
  simp only [List.append_assoc]

theorem setup_frame (p : Panel) (w : World) : { setup p w with ops := w.ops } = w := by
  simp [setup, Display.init, drawLabels_eq, Display.clearAndInitialize, updateBattery_eq,
    updateSpeed_eq, updateDistance_eq, tft.fillScreen, tft.setTextColor, tft.setTextSize,
    tft.setCursor, tft.print, tft.initR, tft.setRotation, tft.setSPISpeed, emit]

theorem setup_fields (p : Panel) (w : World) :
    (setup p w).currentBattery = w.currentBattery ∧ (setup p w).currentSpeed = w.currentSpeed ∧
      (setup p w).currentSafetyMargin = w.currentSafetyMargin ∧
      (setup p w).currentDistance = w.currentDistance ∧
      (setup p w).display = w.display := by
  simp [setup, Display.init, drawLabels_eq, Display.clearAndInitialize, updateBattery_eq,
    updateSpeed_eq, updateDistance_eq, tft.fillScreen, tft.setTextColor, tft.setTextSize,
    tft.setCursor, tft.print, tft.initR, tft.setRotation, tft.setSPISpeed, emit]

theorem setup_boot_fields (p : Panel) :
    (setup p boot).currentBattery = 0 ∧ (setup p boot).currentSpeed = 0 ∧
      (setup p boot).currentSafetyMargin = 0 ∧ (setup p boot).currentDistance = 0 ∧
      (setup p boot).display.inAlertMode = false := by
  obtain ⟨h1, h2, h3, h4, h5⟩ := setup_fields p boot
  rw [h1, h2, h3, h4, h5]
  exact ⟨rfl, rfl, rfl, rfl, rfl⟩

theorem valueOps_from_zero_prints (p : Panel) (n : Nat) (x y : Int) (c : Nat) (size : Int)
    (h1 : 1 ≤ n) (h2 : n ≤ 99) : (valueOps p 0 n x y c size).filter Op.isPrint ≠ [] := by
  have h := valueOps_nat p 0 n x y c size
  have e : min (0 : Nat) 99 = 0 := by decide
  rw [Nat.min_eq_left h2, e] at h
  simp only [Nat.cast_zero, Nat.zero_div, Nat.zero_mod] at h
  have hmem : ∃ ch, Op.printChar ch ∈ valueOps p 0 n x y c size := by
    rw [h]
    by_cases ht : 0 = n / 10
    · have hu : 0 ≠ n % 10 := by omega
      exact ⟨Nat.digitChar (n % 10), by simp [hu, cellRedraw]⟩
    · exact ⟨Nat.digitChar (n / 10), by simp [ht, cellRedraw]⟩
  obtain ⟨ch, hch⟩ := hmem
  intro hnil
  have hin : Op.printChar ch ∈ (valueOps p 0 n x y c size).filter Op.isPrint :=
    List.mem_filter.mpr ⟨hch, rfl⟩
  rw [hnil] at hin
  cases hin

theorem emitted_stepBattery_changed (p : Panel) (doc : Payload) (w : World) (b : Int)
    (h : doc.vba = some b) (hne : b ≠ w.currentBattery) (hm : w.display.inAlertMode = false) :
    emitted (APIManager.stepBattery p doc) w =
      valueOps p w.currentBattery b 0 20 (batteryBand b) 3 := by
  apply emitted_of_ops
  rw [stepBattery_eq, h]
  simp [hne, hm]

theorem emitted_stepSpeed_changed (p : Panel) (doc : Payload) (w : World) (r : Int)
    (h : doc.vsp = some r) (hne : r ≠ w.currentSpeed) (hm : w.display.inAlertMode = false) :
    emitted (APIManager.stepSpeed p doc) w =
      valueOps p w.currentSpeed (kmToMi r) 70 20 TEXT_COLOR 7 := by
  apply emitted_of_ops
  rw [stepSpeed_eq, h]
  simp [hne, hm]

theorem emitted_stepDistance_changed (p : Panel) (doc : Payload) (w : World) (r : Int)
    (h : doc.vdi = some r) (hne : r ≠ w.currentDistance) (hm : w.display.inAlertMode = false) :
    emitted (APIManager.stepDistance p doc) w =
      valueOps p w.currentDistance (kmToMi r) 0 60 TEXT_COLOR 3 := by
  apply emitted_of_ops
  rw [stepDistance_eq, h]
  simp [hne, hm]

theorem stepSafetyMargin_stays_normal (p : Panel) (doc : Payload) (w : World)
    (hm : w.display.inAlertMode = false)
    (h : ∀ m, doc.vsmg = some m → m = w.currentSafetyMargin ∨ 15 ≤ m) :
    (APIManager.stepSafetyMargin p doc w).display.inAlertMode = false := by
  rw [stepSafetyMargin_eq]
  cases hv : doc.vsmg with
  | none => exact hm
  | some m =>
    by_cases hb : m = w.currentSafetyMargin
    · simp [hb, hm]
    · have h15 : 15 ≤ m := by
        rcases h m hv with h1 | h1
        · exact absurd h1 hb
        · exact h1
      have : ¬ m < 15 := by omega
      simp [hb, this]

theorem render_append (p : Panel) (s : Screen) (a b : List Op) :
    render p s (a ++ b) = render p (render p s a) b := by
  simp [render, List.foldl_append]

theorem render_cellRedraw (p : Panel) (s : Screen) (cx y : Int) (color : Nat) (o n : Char)
    (hbg : s.bg = BACKGROUND_COLOR) (hcol : color ≠ BACKGROUND_COLOR)
    (hcell : s.cells (cx, y) = [o]) :
    (render p s (cellRedraw cx y color o n)).cells = Function.update s.cells (cx, y) [n] ∧
      (render p s (cellRedraw cx y color o n)).bg = s.bg := by
  simp [render, cellRedraw, Screen.step, Screen.glyph, hbg, hcol, hcell]

theorem render_valueOps (p : Panel) (s : Screen) (o n : Nat) (x y : Int) (color : Nat)
    (size : Int) (hgw : p.textW size ≠ 0) (hbg : s.bg = BACKGROUND_COLOR)
    (hcol : color ≠ BACKGROUND_COLOR) (hs : s.shows x y (p.textW size) o) :
    (render p s (valueOps p o n x y color size)).cells =
        Function.update (Function.update s.cells (x, y) [Nat.digitChar (min n 99 / 10)])
          (x + p.textW size, y) [Nat.digitChar (min n 99 % 10)] ∧
      (render p s (valueOps p o n x y color size)).bg = s.bg := by
  obtain ⟨h0, h1⟩ := hs
  have hne : (x + p.textW size, y) ≠ (x, y) := by
    intro e
    have := congrArg Prod.fst e
    simp at this
    exact hgw this
  rw [valueOps_nat]
  -- the state after the text-size call
  have hsz : render p s (Op.setTextSize size :: ([] : List Op)) = { s with size := size } := rfl
  rw [show ∀ l : List Op, Op.setTextSize size :: l = [Op.setTextSize size] ++ l from fun _ => rfl,
    render_append, hsz, render_append]
  set s1 : Screen := { s with size := size } with hs1
  have b1 : s1.bg = BACKGROUND_COLOR := hbg
  by_cases ht : min o 99 / 10 = min n 99 / 10
  · have e0 : render p s1 (if min o 99 / 10 ≠ min n 99 / 10 then
        cellRedraw x y color (Nat.digitChar (min o 99 / 10)) (Nat.digitChar (min n 99 / 10))
        else []) = s1 := by simp [ht, render]
    rw [e0]
    have u0 : Function.update s.cells (x, y) [Nat.digitChar (min n 99 / 10)] = s.cells := by
      rw [← ht, ← h0]; exact Function.update_eq_self _ _
    rw [u0]
    by_cases hu : min o 99 % 10 = min n 99 % 10
    · simp only [ne_eq, hu, not_true_eq_false, if_false]
      refine ⟨?_, rfl⟩
      show s.cells = _
      rw [← hu, ← h1]; exact (Function.update_eq_self _ _).symm
    · simp only [ne_eq, hu, not_false_eq_true, if_true]
      exact render_cellRedraw p s1 _ y color _ _ b1 hcol h1
  · simp only [ne_eq, ht, not_false_eq_true, if_true]
    obtain ⟨c2, b2⟩ := render_cellRedraw p s1 x y color (Nat.digitChar (min o 99 / 10))
      (Nat.digitChar (min n 99 / 10)) b1 hcol h0
    set s2 := render p s1 (cellRedraw x y color (Nat.digitChar (min o 99 / 10))
      (Nat.digitChar (min n 99 / 10))) with hs2
    have c2' : s2.cells = Function.update s.cells (x, y) [Nat.digitChar (min n 99 / 10)] := c2
    have b2' : s2.bg = BACKGROUND_COLOR := by rw [b2]; exact b1
    have h1' : s2.cells (x + p.textW size, y) = [Nat.digitChar (min o 99 % 10)] := by
      rw [c2', Function.update_noteq hne]; exact h1
    by_cases hu : min o 99 % 10 = min n 99 % 10
    · simp only [ne_eq, hu, not_true_eq_false, if_false]
      refine ⟨?_, b2'.trans hbg.symm⟩
      show s2.cells = _
      rw [← hu, ← h1', c2']
      exact (Function.update_eq_self _ _).symm
    · simp only [ne_eq, hu, not_false_eq_true, if_true]
      obtain ⟨c3, b3⟩ := render_cellRedraw p s2 (x + p.textW size) y color
        (Nat.digitChar (min o 99 % 10)) (Nat.digitChar (min n 99 % 10)) b2' hcol h1'
      refine ⟨?_, ?_⟩
      · rw [c3, c2']
      · rw [b3, b2']; exact hbg.symm


theorem emitted_updateValue (p : Panel) (o n x y : Int) (color : Nat) (size : Int) (w : World) :
    emitted (Display.updateValue p o n x y color size) w = valueOps p o n x y color size :=
  emitted_of_ops (by rw [updateValue_eq_valueOps])

theorem pad2_digits : ∀ k : Fin 100, ∀ ch ∈ pad2 k.val, ch.isDigit = true := by decide

theorem twoDigitStr_saturated (v : Nat) (h : 99 ≤ v) : twoDigitStr (v : Int) = "99" := by
  apply String.ext
  rw [twoDigitStr_data, Nat.min_eq_right h]
  rfl

/-! ## Lemmas: the binary64 product and its rounding -/

theorem roundNearestEven_near (n s : Nat) :
    2 * n ≤ 2 * (roundNearestEven n s * 2 ^ s) + 2 ^ s ∧
      2 * (roundNearestEven n s * 2 ^ s) ≤ 2 * n + 2 ^ s := by
  have hpos : 0 < 2 ^ s := Nat.two_pow_pos s
  unfold roundNearestEven
  simp only
  generalize 2 ^ s = P at hpos ⊢
  have hdm : P * (n / P) + n % P = n := Nat.div_add_mod n P
  have hlt : n % P < P := Nat.mod_lt _ hpos
  generalize n / P = q at hdm ⊢
  generalize n % P = r at hdm hlt ⊢
  have hdm2 : q * P + r = n := by rw [Nat.mul_comm]; exact hdm
  split_ifs with h1 h2 h3
  · constructor <;> nlinarith
  · constructor <;> nlinarith
  · constructor <;> nlinarith
  · constructor <;> nlinarith

theorem bitLengthAux_zero (fuel : Nat) : bitLengthAux fuel 0 = 0 := by
  cases fuel <;> simp [bitLengthAux]

theorem bitLengthAux_lower :
    ∀ fuel n : Nat, n ≤ fuel → 0 < n → 2 ^ (bitLengthAux fuel n - 1) ≤ n := by
  intro fuel
  induction fuel with
  | zero => intro n h1 h2; omega
  | succ f ih =>
    intro n h1 h2
    have hn : n ≠ 0 := by omega
    simp only [bitLengthAux, if_neg hn, Nat.add_sub_cancel]
    rcases Nat.eq_zero_or_pos (n / 2) with h0 | h0
    · rw [h0, bitLengthAux_zero]; simpa using h2
    · have h3 := ih (n / 2) (by omega) h0
      have h4 : bitLengthAux f (n / 2) ≠ 0 := by
        intro e
        cases f with
        | zero => omega
        | succ g =>
          have hne : n / 2 ≠ 0 := by omega
          simp [bitLengthAux, hne] at e
      have h5 : bitLengthAux f (n / 2) = (bitLengthAux f (n / 2) - 1) + 1 := by omega
      rw [h5, pow_succ]
      omega

theorem pow_shift_le (n : Nat) : 2 ^ (bitLength n - 53) * 2 ^ 52 ≤ n + 2 ^ 52 := by
  by_cases h : bitLength n ≤ 53
  · have : bitLength n - 53 = 0 := by omega
    rw [this]; simp
  · have hn : 0 < n := by
      rcases Nat.eq_zero_or_pos n with h0 | h0
      · subst h0; simp [bitLength, bitLengthAux] at h
      · exact h0
    have h2 := bitLengthAux_lower n n (le_refl _) hn
    have h3 : bitLength n - 53 + 52 = bitLengthAux n n - 1 := by
      unfold bitLength at h ⊢; omega
    rw [← pow_add, h3]
    omega

theorem roundBinary64_near (r : Nat) :
    r * kmToMiSig ≤ roundBinary64 (r * kmToMiSig) + r ∧
      roundBinary64 (r * kmToMiSig) ≤ r * kmToMiSig + r := by
  have h1 := roundNearestEven_near (r * kmToMiSig) (bitLength (r * kmToMiSig) - 53)
  have h2 := pow_shift_le (r * kmToMiSig)
  unfold roundBinary64
  simp only
  generalize roundNearestEven (r * kmToMiSig) (bitLength (r * kmToMiSig) - 53) *
    2 ^ (bitLength (r * kmToMiSig) - 53) = A at h1 ⊢
  generalize 2 ^ (bitLength (r * kmToMiSig) - 53) = P at h1 h2
  have h3 : kmToMiSig = 5596812408117665 := rfl
  rw [h3] at h1 h2 ⊢
  norm_num at h2
  omega

theorem no_tie (r : Nat) (h : r < 500000) : (r * 621371 + 500000) % 1000000 ≠ 0 := by
  intro h0
  have hd : 1000000 ∣ r * 621371 + 500000 := Nat.dvd_of_mod_eq_zero h0
  have h5 : 500000 ∣ r * 621371 + 500000 := Dvd.dvd.trans (by norm_num) hd
  have h6 : 500000 ∣ r * 621371 := (Nat.dvd_add_left (dvd_refl _)).mp h5
  have hc : Nat.Coprime 500000 621371 := by norm_num
  have h7 : 500000 ∣ r := hc.dvd_of_dvd_mul_right h6
  have h8 : r = 0 := Nat.eq_zero_of_dvd_of_lt h7 h
  subst h8
  norm_num at h0

theorem roundHalfAway_product (r : Nat) (h : r < 500000) :
    roundHalfAway (roundBinary64 (r * kmToMiSig)) = (r * 621371 + 500000) / 1000000 := by
  have h1 := roundBinary64_near r
  have h2 := no_tie r h
  have h3 := Nat.div_add_mod (r * 621371 + 500000) 1000000
  have h4 := Nat.mod_lt (r * 621371 + 500000) (show 0 < 1000000 by norm_num)
  generalize (r * 621371 + 500000) / 1000000 = T at h3 ⊢
  generalize (r * 621371 + 500000) % 1000000 = e at h2 h3 h4
  generalize roundBinary64 (r * kmToMiSig) = A at h1 ⊢
  have h5 : kmToMiSig = 5596812408117665 := rfl
  rw [h5] at h1
  unfold roundHalfAway
  norm_num
  apply Nat.div_eq_of_lt_le <;> omega

theorem kmToMi_natCast (r : Nat) (h : r < 500000) :
    kmToMi (r : Int) = ((r * 621371 + 500000) / 1000000 : Nat) := by
  unfold kmToMi
  rcases Nat.eq_zero_or_pos r with h0 | h0
  · subst h0
    decide
  · have hs : Int.sign (r : Int) = 1 := Int.sign_eq_one_of_pos (by exact_mod_cast h0)
    rw [hs, Int.natAbs_ofNat, roundHalfAway_product r h]
    simp

theorem kmToMi_small (r : Nat) (h1 : 1 ≤ r) (h2 : r ≤ 99) :
    ∃ k : Nat, kmToMi (r : Int) = (k : Int) ∧ 1 ≤ k ∧ k ≤ 99 := by
  refine ⟨(r * 621371 + 500000) / 1000000, kmToMi_natCast r (by omega), ?_, ?_⟩
  · apply (Nat.le_div_iff_mul_le (by norm_num)).mpr; omega
  · apply Nat.le_of_lt_succ
    apply (Nat.div_lt_iff_lt_mul (by norm_num)).mpr; omega


/-- A later cycle: from a Normal-mode state whose stored battery, speed and
distance are all 22, the payload `vba = 90, vsp = 50, vsmg = 20, vdi = 5`
redraws both digits of each metric. -/
theorem cycle_from_sentinel_store (p : Panel) (w : World) (hmode : w.display.inAlertMode = false)
    (hb : w.currentBattery = 22) (hs : w.currentSpeed = 22) (hd : w.currentDistance = 22) :
    emitted (APIManager.parseAndUpdateValues p (some firstPayload)) w =
        (Op.setTextSize 3 ::
          (cellRedraw 0 20 ST7735_GREEN '2' '9' ++
           cellRedraw (0 + p.textW 3) 20 ST7735_GREEN '2' '0')) ++
        (Op.setTextSize 7 ::
          (cellRedraw 70 20 TEXT_COLOR '2' '3' ++
           cellRedraw (70 + p.textW 7) 20 TEXT_COLOR '2' '1')) ++
        (Op.setTextSize 3 ::
          (cellRedraw 0 60 TEXT_COLOR '2' '0' ++
           cellRedraw (0 + p.textW 3) 60 TEXT_COLOR '2' '3'))
      ∧ (emitted (APIManager.parseAndUpdateValues p (some firstPayload)) w).filter Op.isFill = []
      ∧ (APIManager.parseAndUpdateValues p (some firstPayload) w).display.inAlertMode = false
      ∧ (APIManager.parseAndUpdateValues p (some firstPayload) w).currentBattery = 90
      ∧ (APIManager.parseAndUpdateValues p (some firstPayload) w).currentSpeed = 31
      ∧ (APIManager.parseAndUpdateValues p (some firstPayload) w).currentDistance = 3 := by
  have k50 : kmToMi 50 = 31 := kmToMi_samples.2.2.1
  have k5 : kmToMi 5 = 3 := kmToMi_samples.2.2.2.1
  have v1 := valueOps_nat p 22 90 0 20 ST7735_GREEN 3
  have v2 := valueOps_nat p 22 31 70 20 TEXT_COLOR 7
  have v3 := valueOps_nat p 22 3 0 60 TEXT_COLOR 3
  norm_num [Nat.digitChar] at v1 v2 v3
  have hall : APIManager.parseAndUpdateValues p (some firstPayload) w =
      { currentBattery := 90, currentSpeed := 31, currentSafetyMargin := 20, currentDistance := 3
        display := { currentBattery := 90, currentSpeed := 31, inAlertMode := false }
        ops := w.ops ++
          ((Op.setTextSize 3 ::
            (cellRedraw 0 20 ST7735_GREEN '2' '9' ++
             cellRedraw (0 + p.textW 3) 20 ST7735_GREEN '2' '0')) ++
          (Op.setTextSize 7 ::
            (cellRedraw 70 20 TEXT_COLOR '2' '3' ++
             cellRedraw (70 + p.textW 7) 20 TEXT_COLOR '2' '1')) ++
          (Op.setTextSize 3 ::
            (cellRedraw 0 60 TEXT_COLOR '2' '0' ++
             cellRedraw (0 + p.textW 3) 60 TEXT_COLOR '2' '3'))) } := by
    by_cases hm : (20 : Int) = w.currentSafetyMargin
    · simp [APIManager.parseAndUpdateValues, stepBattery_eq, stepSpeed_eq, stepSafetyMargin_eq,
        stepDistance_eq, Display.setCurrentValues, firstPayload, hb, hs, hd, hmode, k50, k5,
        ← hm, v1, v2, v3, batteryBand]
    · simp [APIManager.parseAndUpdateValues, stepBattery_eq, stepSpeed_eq, stepSafetyMargin_eq,
        stepDistance_eq, Display.setCurrentValues, firstPayload, hb, hs, hd, hmode, k50, k5,
        hm, v1, v2, v3, batteryBand, marginOps]
  have hem := emitted_of_ops (congrArg World.ops hall)
  refine ⟨hem, ?_, ?_, ?_, ?_, ?_⟩
  · rw [hem]
    simp [cellRedraw, Op.isFill]
  · rw [hall]
  · rw [hall]
  · rw [hall]
  · rw [hall]

/-- The same payload from a Normal-mode state whose stored battery, speed and
distance are all 0: only the digits that differ from 00 are redrawn. -/
theorem cycle_from_zero_store (p : Panel) (w : World) (hmode : w.display.inAlertMode = false)
    (hb : w.currentBattery = 0) (hs : w.currentSpeed = 0) (hd : w.currentDistance = 0) :
    emitted (APIManager.parseAndUpdateValues p (some firstPayload)) w =
        (Op.setTextSize 3 :: cellRedraw 0 20 ST7735_GREEN '0' '9') ++
        (Op.setTextSize 7 ::
          (cellRedraw 70 20 TEXT_COLOR '0' '3' ++
           cellRedraw (70 + p.textW 7) 20 TEXT_COLOR '0' '1')) ++
        (Op.setTextSize 3 :: cellRedraw (0 + p.textW 3) 60 TEXT_COLOR '0' '3')
      ∧ (emitted (APIManager.parseAndUpdateValues p (some firstPayload)) w).filter Op.isFill = []
      ∧ (APIManager.parseAndUpdateValues p (some firstPayload) w).display.inAlertMode = false
      ∧ (APIManager.parseAndUpdateValues p (some firstPayload) w).currentBattery = 90
      ∧ (APIManager.parseAndUpdateValues p (some firstPayload) w).currentSpeed = 31
      ∧ (APIManager.parseAndUpdateValues p (some firstPayload) w).currentDistance = 3 := by
  have k50 : kmToMi 50 = 31 := kmToMi_samples.2.2.1
  have k5 : kmToMi 5 = 3 := kmToMi_samples.2.2.2.1
  have v1 := valueOps_nat p 0 90 0 20 ST7735_GREEN 3
  have v2 := valueOps_nat p 0 31 70 20 TEXT_COLOR 7
  have v3 := valueOps_nat p 0 3 0 60 TEXT_COLOR 3
  norm_num [Nat.digitChar] at v1 v2 v3
  have hall : APIManager.parseAndUpdateValues p (some firstPayload) w =
      { currentBattery := 90, currentSpeed := 31, currentSafetyMargin := 20, currentDistance := 3
        display := { currentBattery := 90, currentSpeed := 31, inAlertMode := false }
        ops := w.ops ++
          ((Op.setTextSize 3 :: cellRedraw 0 20 ST7735_GREEN '0' '9') ++
          (Op.setTextSize 7 ::
            (cellRedraw 70 20 TEXT_COLOR '0' '3' ++
             cellRedraw (70 + p.textW 7) 20 TEXT_COLOR '0' '1')) ++
          (Op.setTextSize 3 :: cellRedraw (0 + p.textW 3) 60 TEXT_COLOR '0' '3')) } := by
    by_cases hm : (20 : Int) = w.currentSafetyMargin
    · simp [APIManager.parseAndUpdateValues, stepBattery_eq, stepSpeed_eq, stepSafetyMargin_eq,
        stepDistance_eq, Display.setCurrentValues, firstPayload, hb, hs, hd, hmode, k50, k5,
        ← hm, v1, v2, v3, batteryBand]
    · simp [APIManager.parseAndUpdateValues, stepBattery_eq, stepSpeed_eq, stepSafetyMargin_eq,
        stepDistance_eq, Display.setCurrentValues, firstPayload, hb, hs, hd, hmode, k50, k5,
        hm, v1, v2, v3, batteryBand, marginOps]
  have hem := emitted_of_ops (congrArg World.ops hall)
  refine ⟨hem, ?_, ?_, ?_, ?_, ?_⟩
  · rw [hem]
    simp [cellRedraw, Op.isFill]
  · rw [hall]
  · rw [hall]
  · rw [hall]
  · rw [hall]

theorem laterSample_fields :
    laterSample.display.inAlertMode = false ∧ laterSample.currentBattery = 22 ∧
      laterSample.currentSpeed = 22 ∧ laterSample.currentDistance = 22 := by
  decide

/-! ## The claims -/

/-- C1.  For `old` and `new` in 0..99, `updateValue` sets the text size and
then, for the tens column (at `x`) and the units column (at `x + 1 * w`, `w`
the glyph width), emits the erase-then-write pair of that column exactly when
the column's digit of `old` differs from that of `new`, and nothing for an
equal column; so it prints nothing when `old = new` and prints at most four
characters (two pairs) in all. -/
theorem updateValue_digit_diff (p : Panel) (old new : Nat) (x y : Int) (color : Nat)
    (size : Int) (w : World) (ho : old ≤ 99) (hn : new ≤ 99) :
    emitted (Display.updateValue p old new x y color size) w =
        Op.setTextSize size ::
          ((if old / 10 ≠ new / 10 then
              cellRedraw (x + 0 * p.textW size) y color (Nat.digitChar (old / 10))
                (Nat.digitChar (new / 10))
            else []) ++
           (if old % 10 ≠ new % 10 then
              cellRedraw (x + 1 * p.textW size) y color (Nat.digitChar (old % 10))
                (Nat.digitChar (new % 10))
            else []))
      ∧ (old = new →
          (emitted (Display.updateValue p old new x y color size) w).filter Op.isPrint = [])
      ∧ ((emitted (Display.updateValue p old new x y color size) w).filter Op.isPrint).length
          ≤ 4 := by
  have h := emitted_of_ops (updateValue_ops_nat p old new x y color size w)
  rw [Nat.min_eq_left ho, Nat.min_eq_left hn] at h
  rw [h]
  refine ⟨by simp, ?_, ?_⟩
  · intro e
    subst e
    simp [Op.isPrint]
  · by_cases h1 : old / 10 = new / 10 <;> by_cases h2 : old % 10 = new % 10 <;>
      simp [h1, h2, cellRedraw, Op.isPrint]


theorem updateValue_digit_diff_witness :
    (22 ≤ 99 ∧ 90 ≤ 99) ∧
      emitted (Display.updateValue samplePanel (22 : Nat) (90 : Nat) 0 20 ST7735_GREEN 3) boot =
        [Op.setTextSize 3,
         Op.setTextColor BACKGROUND_COLOR, Op.setCursor 0 20, Op.printChar '2',
         Op.setTextColor ST7735_GREEN, Op.setCursor 0 20, Op.printChar '9',
         Op.setTextColor BACKGROUND_COLOR, Op.setCursor 18 20, Op.printChar '2',
         Op.setTextColor ST7735_GREEN, Op.setCursor 18 20, Op.printChar '0'] :=
  ⟨⟨by decide, by decide⟩,
   (updateValue_digit_diff samplePanel 22 90 0 20 ST7735_GREEN 3 boot (by decide) (by decide)).1⟩

/-- C2.  Whatever the mode and the old value before the call, after
`updateSafetyMargin(old, new)` the flag `inAlertMode` is true exactly when
`new < 15`: Alert for `new < 15`, Normal for `new >= 15`. -/
theorem updateSafetyMargin_mode (p : Panel) (old new : Int) (w : World) :
    (Display.updateSafetyMargin p old new w).display.inAlertMode = decide (new < 15) := by
  rw [updateSafetyMargin_eq]

/-- C3, at the failing input.  From the boot state (stored safety margin 0,
mode Normal) a parse cycle whose payload carries `vsmg = 0` finds the reading
equal to the stored value, emits nothing, and leaves the mode Normal although
`0 < 15`. -/
theorem boot_zero_margin_stays_normal (p : Panel) :
    boot.display.inAlertMode = false ∧ (0 : Int) < 15 ∧
      (APIManager.parseAndUpdateValues p
        (some { vba := none, vsp := none, vsmg := some 0, vdi := none }) boot).display.inAlertMode
        = false ∧
      emitted (APIManager.parseAndUpdateValues p
        (some { vba := none, vsp := none, vsmg := some 0, vdi := none })) boot = [] := by
  refine ⟨rfl, by decide, rfl, rfl⟩

/-- C4.  What `updateSafetyMargin` repaints, by transition.  Normal to Alert:
the alert fill and the static alert label, then the percentage, with exactly
one `fillScreen`, in the alert colour.  Alert to Normal: the background fill,
the static labels and divider, then the Battery and Speed digits, with
exactly one `fillScreen`, in the background colour.  Alert to Alert: only the
percentage redraw, no `fillScreen`.  Normal to Normal: nothing at all. -/
theorem updateSafetyMargin_repaints (p : Panel) (old new : Int) (w : World) :
    (w.display.inAlertMode = false → new < 15 →
        emitted (Display.updateSafetyMargin p old new) w = alertScreenOps ++ percentOps old new ∧
        (emitted (Display.updateSafetyMargin p old new) w).filter Op.isFill =
          [Op.fillScreen ALERT_COLOR]) ∧
    (w.display.inAlertMode = true → 15 ≤ new →
        emitted (Display.updateSafetyMargin p old new) w =
          Op.fillScreen BACKGROUND_COLOR :: labelOps p ++
            valueOps p 0 w.display.currentBattery 0 20 (batteryBand w.display.currentBattery) 3 ++
            valueOps p 0 w.display.currentSpeed 70 20 TEXT_COLOR 7 ∧
        (emitted (Display.updateSafetyMargin p old new) w).filter Op.isFill =
          [Op.fillScreen BACKGROUND_COLOR]) ∧
    (w.display.inAlertMode = true → new < 15 →
        emitted (Display.updateSafetyMargin p old new) w = percentOps old new ∧
        (emitted (Display.updateSafetyMargin p old new) w).filter Op.isFill = []) ∧
    (w.display.inAlertMode = false → 15 ≤ new →
        emitted (Display.updateSafetyMargin p old new) w = []) := by
  rw [emitted_updateSafetyMargin]
  refine ⟨?_, ?_, ?_, ?_⟩
  · intro ha hn
    simp [marginOps, ha, hn, filter_isFill_percentOps]
    simp [alertScreenOps, Op.isFill]
  · intro ha hn
    have hn2 : ¬ new < 15 := by omega
    simp [marginOps, ha, hn2, filter_isFill_valueOps, filter_isFill_labelOps, Op.isFill]
  · intro ha hn
    simp [marginOps, ha, hn, filter_isFill_percentOps]
  · intro ha hn
    have hn2 : ¬ new < 15 := by omega
    simp [marginOps, ha, hn2]

theorem updateSafetyMargin_repaints_witness :
    (emitted (Display.updateSafetyMargin samplePanel 20 10) normalSample =
        alertScreenOps ++ percentOps 20 10 ∧
      (emitted (Display.updateSafetyMargin samplePanel 20 10) normalSample).filter Op.isFill =
        [Op.fillScreen ALERT_COLOR]) ∧
    (emitted (Display.updateSafetyMargin samplePanel 10 20) alertSample).filter Op.isFill =
        [Op.fillScreen BACKGROUND_COLOR] ∧
    emitted (Display.updateSafetyMargin samplePanel 10 11) alertSample = percentOps 10 11 ∧
    emitted (Display.updateSafetyMargin samplePanel 20 21) normalSample = [] :=
  ⟨(updateSafetyMargin_repaints samplePanel 20 10 normalSample).1 rfl (by decide),
   ((updateSafetyMargin_repaints samplePanel 10 20 alertSample).2.1 rfl (by decide)).2,
   ((updateSafetyMargin_repaints samplePanel 10 11 alertSample).2.2.1 rfl (by decide)).1,
   (updateSafetyMargin_repaints samplePanel 20 21 normalSample).2.2.2 rfl (by decide)⟩

/-- C5, at the failing input.  In Alert mode with distance 12 stored,
`updateSafetyMargin(10, 20)` leaves Alert mode and its trace sets no cursor on
the Distance row `y = 60`, so no Distance digit is drawn; `clearAndInitialize`
on the same stored values does draw at the Distance anchor (0, 60). -/
theorem exit_repaint_skips_distance (p : Panel) :
    alertSample.display.inAlertMode = true ∧ alertSample.currentDistance = 12 ∧
      (Display.updateSafetyMargin p 10 20 alertSample).display.inAlertMode = false ∧
      (∀ x : Int, Op.setCursor x 60 ∉ emitted (Display.updateSafetyMargin p 10 20) alertSample) ∧
      Op.setCursor 0 60 ∈ emitted (Display.clearAndInitialize p)
          (Display.setAlertMode false alertSample) := by
  refine ⟨rfl, rfl, ?_, ?_, ?_⟩
  · rw [updateSafetyMargin_eq]; rfl
  · intro x hx
    rw [emitted_updateSafetyMargin] at hx
    simp only [marginOps, alertSample, if_true, List.mem_cons, List.mem_append] at hx
    norm_num at hx
    rcases hx with hx | hx | hx | hx
    · simp at hx
    · simp [labelOps] at hx
    · have := setCursor_mem_valueOps hx; omega
    · have := setCursor_mem_valueOps hx; omega
  · rw [emitted_clearAndInitialize]
    have h := diffCell_zero 0 12 0 60 (p.textW 3) TEXT_COLOR
    norm_num at h
    simp [Display.setAlertMode, alertSample, valueOps, h, cellRedraw]

/-- C6.  In Alert mode `updateBattery`, `updateSpeed` and `updateDistance`
emit nothing, for every `old` and `new`; and in every mode each of the three
leaves all of the state other than the trace (the mode, the cached values,
the four stored values) as it was. -/
theorem metrics_suppressed_in_alert (p : Panel) (old new : Int) (w : World) :
    (w.display.inAlertMode = true →
        emitted (Display.updateBattery p old new) w = [] ∧
        emitted (Display.updateSpeed p old new) w = [] ∧
        emitted (Display.updateDistance p old new) w = []) ∧
    { Display.updateBattery p old new w with ops := w.ops } = w ∧
    { Display.updateSpeed p old new w with ops := w.ops } = w ∧
    { Display.updateDistance p old new w with ops := w.ops } = w := by
  refine ⟨?_, ?_, ?_, ?_⟩
  · intro ha
    refine ⟨emitted_of_ops ?_, emitted_of_ops ?_, emitted_of_ops ?_⟩
    · simp [updateBattery_eq, ha]
    · simp [updateSpeed_eq, ha]
    · simp [updateDistance_eq, ha]
  · simp [updateBattery_eq]
  · simp [updateSpeed_eq]
  · simp [updateDistance_eq]

theorem metrics_suppressed_in_alert_witness :
    emitted (Display.updateBattery samplePanel 50 90) alertSample = [] ∧
      emitted (Display.updateSpeed samplePanel 50 90) alertSample = [] ∧
      emitted (Display.updateDistance samplePanel 50 90) alertSample = [] :=
  (metrics_suppressed_in_alert samplePanel 50 90 alertSample).1 rfl

/-- C8, at the failing input.  With speed 31 stored (the conversion of raw
50), a payload with raw `vsp = 31` is compared unconverted with the stored
value, found equal, and skipped: nothing is emitted and the stored speed
stays 31 although `round(31 * 0.621371) = 19`.  A payload with raw `vsp = 50`
is found different from 31 and `updateSpeed` runs (setting the text size)
although `round(50 * 0.621371) = 31` is the stored value. -/
theorem speed_compared_before_conversion (p : Panel) :
    normalSample.currentSpeed = 31 ∧ kmToMi 31 = 19 ∧
      emitted (APIManager.parseAndUpdateValues p
        (some { vba := none, vsp := some 31, vsmg := none, vdi := none })) normalSample = [] ∧
      (APIManager.parseAndUpdateValues p
        (some { vba := none, vsp := some 31, vsmg := none, vdi := none })
        normalSample).currentSpeed = 31 ∧
      kmToMi 50 = 31 ∧
      emitted (APIManager.parseAndUpdateValues p
        (some { vba := none, vsp := some 50, vsmg := none, vdi := none })) normalSample =
        [Op.setTextSize 7] := by
  refine ⟨rfl, by decide, rfl, rfl, by decide, ?_⟩
  apply emitted_of_ops
  have h : kmToMi 50 = 31 := by decide
  simp [APIManager.parseAndUpdateValues, stepBattery_eq, stepSpeed_eq, stepSafetyMargin_eq,
    stepDistance_eq, Display.setCurrentValues, normalSample, h, valueOps, diffCell]

/-- C9.  For a raw reading `0 <= r < 500000` the binary64 computation
`round(r * 0.621371)` equals `floor((r * 621371 + 500000) / 1000000)`, which
lies strictly within one half of `r * 621371 / 1000000`; when the `vsp`
(respectively `vdi`) block renders an update for `r`, that number is both the
value passed to `updateSpeed` (`updateDistance`) and the value stored.  Raw
100 gives 62, raw 10 gives 6, raw 50 gives 31, raw 5 gives 3. -/
theorem conversion_is_nearest_integer (p : Panel) (r : Nat) (doc : Payload) (w : World)
    (hr : r < 500000) :
    kmToMi (r : Int) = ((r * 621371 + 500000) / 1000000 : Nat)
      ∧ 2 * (kmToMi (r : Int) * 1000000) < 2 * ((r : Int) * 621371) + 1000000
      ∧ 2 * ((r : Int) * 621371) < 2 * (kmToMi (r : Int) * 1000000) + 1000000
      ∧ (doc.vsp = some (r : Int) → (r : Int) ≠ w.currentSpeed →
          APIManager.stepSpeed p doc w =
            { Display.updateSpeed p w.currentSpeed ((r * 621371 + 500000) / 1000000 : Nat) w with
              currentSpeed := ((r * 621371 + 500000) / 1000000 : Nat) })
      ∧ (doc.vdi = some (r : Int) → (r : Int) ≠ w.currentDistance →
          APIManager.stepDistance p doc w =
            { Display.updateDistance p w.currentDistance
                ((r * 621371 + 500000) / 1000000 : Nat) w with
              currentDistance := ((r * 621371 + 500000) / 1000000 : Nat) })
      ∧ kmToMi 100 = 62 ∧ kmToMi 10 = 6 ∧ kmToMi 50 = 31 ∧ kmToMi 5 = 3 := by
  have h := kmToMi_natCast r hr
  refine ⟨h, ?_, ?_, ?_, ?_, kmToMi_samples.1, kmToMi_samples.2.1, kmToMi_samples.2.2.1,
    kmToMi_samples.2.2.2.1⟩
  · rw [h]
    have h2 := no_tie r hr
    have h3 := Nat.div_add_mod (r * 621371 + 500000) 1000000
    have h4 := Nat.mod_lt (r * 621371 + 500000) (show 0 < 1000000 by norm_num)
    generalize (r * 621371 + 500000) / 1000000 = T at h3 ⊢
    generalize (r * 621371 + 500000) % 1000000 = e at h2 h3 h4
    omega
  · rw [h]
    have h2 := no_tie r hr
    have h3 := Nat.div_add_mod (r * 621371 + 500000) 1000000
    have h4 := Nat.mod_lt (r * 621371 + 500000) (show 0 < 1000000 by norm_num)
    generalize (r * 621371 + 500000) / 1000000 = T at h3 ⊢
    generalize (r * 621371 + 500000) % 1000000 = e at h2 h3 h4
    omega
  · intro hd hne
    unfold APIManager.stepSpeed
    rw [hd]
    simp only [ne_eq, hne, not_false_eq_true, if_true]
    rw [h]
  · intro hd hne
    unfold APIManager.stepDistance
    rw [hd]
    simp only [ne_eq, hne, not_false_eq_true, if_true]
    rw [h]

theorem conversion_is_nearest_integer_witness :
    100 < 500000 ∧ kmToMi ((100 : Nat) : Int) = ((100 * 621371 + 500000) / 1000000 : Nat) :=
  ⟨by decide,
   (conversion_is_nearest_integer samplePanel 100
     { vba := none, vsp := some 100, vsmg := none, vdi := none } normalSample (by decide)).1⟩

/-- C11.  Processing the same payload twice in succession: the second
processing emits no draw operation (no `fillScreen`, no print, no line; it may
set the text size again) and leaves the stored values, the display cache and
the display mode exactly as the first processing left them. -/
theorem parse_twice_quiet (p : Panel) (payload : Option Payload) (w : World) :
    (emitted (APIManager.parseAndUpdateValues p payload)
        (APIManager.parseAndUpdateValues p payload w)).filter Op.isDraw = [] ∧
      { APIManager.parseAndUpdateValues p payload (APIManager.parseAndUpdateValues p payload w) with
        ops := (APIManager.parseAndUpdateValues p payload w).ops } =
      APIManager.parseAndUpdateValues p payload w := by
  cases payload with
  | none => exact ⟨by simp [emitted, APIManager.parseAndUpdateValues], rfl⟩
  | some doc =>
    obtain ⟨f1, f2, f3, f4⟩ := parse_fields p doc w
    obtain ⟨g1, g2⟩ := parse_synced p doc w
    obtain ⟨l, e, q⟩ := parse_settled p doc (APIManager.parseAndUpdateValues p (some doc) w)
      (fun b hb => by rw [f1]; exact stepBattery_own p doc w b hb)
      (fun r hr => by rw [f2]; exact stepSpeed_own p doc _ r hr)
      (fun m hm => by rw [f3]; exact stepSafetyMargin_own p doc _ m hm)
      (fun r hr => by rw [f4]; exact stepDistance_own p doc _ r hr)
      g1 g2
    constructor
    · rw [emitted_of_ops (show (APIManager.parseAndUpdateValues p (some doc)
        (APIManager.parseAndUpdateValues p (some doc) w)).ops = _ ++ l by rw [e])]
      exact q
    · rw [e]

/-- C12, counterexample.  The first cycle starts from the state after
`setup()`, whose stored battery, speed and distance are 0, not 22; from it the
payload `vba = 90, vsp = 50, vsmg = 20, vdi = 5` redraws one Battery digit
only (the 9 at the tens cell; no cursor is set on the units cell (18, 20))
and one Distance digit only (the 3 at the units cell). -/
theorem first_cycle_redraws_one_battery_digit :
    (setup samplePanel boot).currentBattery = 0 ∧ (setup samplePanel boot).currentSpeed = 0 ∧
      (setup samplePanel boot).currentDistance = 0 ∧
      emitted (APIManager.parseAndUpdateValues samplePanel (some firstPayload))
          (setup samplePanel boot) =
        [Op.setTextSize 3,
         Op.setTextColor BACKGROUND_COLOR, Op.setCursor 0 20, Op.printChar '0',
         Op.setTextColor ST7735_GREEN, Op.setCursor 0 20, Op.printChar '9',
         Op.setTextSize 7,
         Op.setTextColor BACKGROUND_COLOR, Op.setCursor 70 20, Op.printChar '0',
         Op.setTextColor TEXT_COLOR, Op.setCursor 70 20, Op.printChar '3',
         Op.setTextColor BACKGROUND_COLOR, Op.setCursor 112 20, Op.printChar '0',
         Op.setTextColor TEXT_COLOR, Op.setCursor 112 20, Op.printChar '1',
         Op.setTextSize 3,
         Op.setTextColor BACKGROUND_COLOR, Op.setCursor 18 60, Op.printChar '0',
         Op.setTextColor TEXT_COLOR, Op.setCursor 18 60, Op.printChar '3'] ∧
      Op.setCursor 18 20 ∉ emitted (APIManager.parseAndUpdateValues samplePanel
        (some firstPayload)) (setup samplePanel boot) := by
  decide

/-- C12, amended.  First cycle: from the state reached after `setup()`
(Normal mode, stored battery, speed and distance all 0, the screen showing 00
for each), the payload `vba = 90, vsp = 50, vsmg = 20, vdi = 5` redraws the
Battery tens digit in green showing 9, both Speed digits showing 31 and the
Distance units digit showing 3 (the digits 0 of 90 and of 03 are already on
screen and are not redrawn), emits no full-screen fill, stays in Normal mode,
and ends with stored battery 90, speed 31 and distance 3.  Later cycle: from
any Normal-mode state whose stored battery, speed and distance are all 22,
the same payload redraws both digits of each metric, with the same end
state. -/
theorem first_cycle_scenario (p : Panel) (w : World) :
    ((setup p boot).currentBattery = 0 ∧ (setup p boot).currentSpeed = 0 ∧
        (setup p boot).currentDistance = 0 ∧ (setup p boot).display.inAlertMode = false) ∧
    (emitted (APIManager.parseAndUpdateValues p (some firstPayload)) (setup p boot) =
        (Op.setTextSize 3 :: cellRedraw 0 20 ST7735_GREEN '0' '9') ++
        (Op.setTextSize 7 ::
          (cellRedraw 70 20 TEXT_COLOR '0' '3' ++
           cellRedraw (70 + p.textW 7) 20 TEXT_COLOR '0' '1')) ++
        (Op.setTextSize 3 :: cellRedraw (0 + p.textW 3) 60 TEXT_COLOR '0' '3')
      ∧ (emitted (APIManager.parseAndUpdateValues p (some firstPayload))
          (setup p boot)).filter Op.isFill = []
      ∧ (APIManager.parseAndUpdateValues p (some firstPayload)
          (setup p boot)).display.inAlertMode = false
      ∧ (APIManager.parseAndUpdateValues p (some firstPayload) (setup p boot)).currentBattery
          = 90
      ∧ (APIManager.parseAndUpdateValues p (some firstPayload) (setup p boot)).currentSpeed = 31
      ∧ (APIManager.parseAndUpdateValues p (some firstPayload) (setup p boot)).currentDistance
          = 3) ∧
    (w.display.inAlertMode = false → w.currentBattery = 22 → w.currentSpeed = 22 →
      w.currentDistance = 22 →
      emitted (APIManager.parseAndUpdateValues p (some firstPayload)) w =
        (Op.setTextSize 3 ::
          (cellRedraw 0 20 ST7735_GREEN '2' '9' ++
           cellRedraw (0 + p.textW 3) 20 ST7735_GREEN '2' '0')) ++
        (Op.setTextSize 7 ::
          (cellRedraw 70 20 TEXT_COLOR '2' '3' ++
           cellRedraw (70 + p.textW 7) 20 TEXT_COLOR '2' '1')) ++
        (Op.setTextSize 3 ::
          (cellRedraw 0 60 TEXT_COLOR '2' '0' ++
           cellRedraw (0 + p.textW 3) 60 TEXT_COLOR '2' '3'))
      ∧ (emitted (APIManager.parseAndUpdateValues p (some firstPayload)) w).filter Op.isFill = []
      ∧ (APIManager.parseAndUpdateValues p (some firstPayload) w).display.inAlertMode = false
      ∧ (APIManager.parseAndUpdateValues p (some firstPayload) w).currentBattery = 90
      ∧ (APIManager.parseAndUpdateValues p (some firstPayload) w).currentSpeed = 31
      ∧ (APIManager.parseAndUpdateValues p (some firstPayload) w).currentDistance = 3) := by
  obtain ⟨b0, s0, -, d0, a0⟩ := setup_boot_fields p
  exact ⟨⟨b0, s0, d0, a0⟩, cycle_from_zero_store p (setup p boot) a0 b0 s0 d0,
    fun hmode hb hs hd => cycle_from_sentinel_store p w hmode hb hs hd⟩

theorem first_cycle_scenario_witness :
    (laterSample.display.inAlertMode = false ∧ laterSample.currentBattery = 22 ∧
        laterSample.currentSpeed = 22 ∧ laterSample.currentDistance = 22) ∧
      (APIManager.parseAndUpdateValues samplePanel (some firstPayload) laterSample).currentBattery
        = 90
      ∧ (APIManager.parseAndUpdateValues samplePanel (some firstPayload)
          laterSample).currentSpeed = 31
      ∧ (APIManager.parseAndUpdateValues samplePanel (some firstPayload)
          laterSample).currentDistance = 3 :=
  ⟨laterSample_fields,
   ((first_cycle_scenario samplePanel laterSample).2.2 laterSample_fields.1
      laterSample_fields.2.1 laterSample_fields.2.2.1 laterSample_fields.2.2.2).2.2.2⟩

/-- C13, counterexample.  With the HTTP status 404 and a body that decodes
to `vba = 90`, `fetchValues` from the boot state parses the body: it stores
battery 90 and writes the digit 9 in green. -/
theorem fetch_parses_error_status :
    (404 : Int) > 0 ∧
      (APIManager.fetchValues samplePanel 404
        (some { vba := some 90, vsp := none, vsmg := none, vdi := none }) boot).currentBattery
        = 90 ∧
      (ST7735_GREEN, '9') ∈ charInk 0 (emitted (APIManager.fetchValues samplePanel 404
        (some { vba := some 90, vsp := none, vsmg := none, vdi := none })) boot) := by
  decide

/-- C13, amended.  `fetchValues` abandons the cycle exactly on a response
code `<= 0` (a transport-level error): then, for every body, nothing is
emitted and the state is unchanged.  Any positive code, an HTTP status outside
2xx included, has its body handed to `parseAndUpdateValues`. -/
theorem fetch_aborts_on_transport_error (p : Panel) (code : Int) (payload : Option Payload)
    (w : World) :
    (code ≤ 0 →
        APIManager.fetchValues p code payload w = w ∧
        emitted (APIManager.fetchValues p code payload) w = []) ∧
    (0 < code →
        APIManager.fetchValues p code payload w =
          APIManager.parseAndUpdateValues p payload w) := by
  constructor
  · intro h
    have h2 : ¬ code > 0 := by omega
    have e : APIManager.fetchValues p code payload w = w := by
      simp [APIManager.fetchValues, h2]
    exact ⟨e, emitted_of_ops (by rw [e]; simp)⟩
  · intro h
    simp [APIManager.fetchValues, h]

theorem fetch_aborts_on_transport_error_witness :
    APIManager.fetchValues samplePanel (-1)
        (some { vba := some 90, vsp := none, vsmg := none, vdi := none }) boot = boot ∧
      APIManager.fetchValues samplePanel 500
        (some { vba := some 90, vsp := none, vsmg := none, vdi := none }) boot =
        APIManager.parseAndUpdateValues samplePanel
          (some { vba := some 90, vsp := none, vsmg := none, vdi := none }) boot :=
  ⟨((fetch_aborts_on_transport_error samplePanel (-1)
      (some { vba := some 90, vsp := none, vsmg := none, vdi := none }) boot).1 (by decide)).1,
   (fetch_aborts_on_transport_error samplePanel 500
      (some { vba := some 90, vsp := none, vsmg := none, vdi := none }) boot).2 (by decide)⟩

/-- C14, counterexample.  In Alert mode, `updateSafetyMargin(10, 11)` prints
the whole text "10" and "%" in the alert colour and the whole text "11" and
"%" in the text colour: the unchanged tens digit is printed again. -/
theorem alert_percentage_reprints_tens :
    emitted (Display.updateSafetyMargin samplePanel 10 11) alertSample =
      [Op.setTextSize 5,
       Op.setTextColor ALERT_COLOR, Op.setCursor 30 40, Op.print "10", Op.print "%",
       Op.setTextColor TEXT_COLOR, Op.setCursor 30 40, Op.print "11", Op.print "%"] := by
  decide

/-- C14, amended.  For `old` in 0..99 and `new < 15` the percentage redraw of
`updateSafetyMargin` is not digit-diffed: after the alert screen (when Alert
mode is entered) it prints, from (30, 40), the whole zero-padded two-digit
text of `old` and "%" in the alert colour, then the whole zero-padded
two-digit text of `new` and "%" in the text colour, whichever digits changed;
no single character is printed on its own. -/
theorem alert_percentage_full_redraw (p : Panel) (old new : Nat) (w : World)
    (ho : old ≤ 99) (hn : new < 15) :
    emitted (Display.updateSafetyMargin p old new) w =
        (if w.display.inAlertMode then [] else alertScreenOps) ++
          [Op.setTextSize 5,
           Op.setTextColor ALERT_COLOR, Op.setCursor 30 40,
           Op.print (alertStr old), Op.print "%",
           Op.setTextColor TEXT_COLOR, Op.setCursor 30 40,
           Op.print (alertStr new), Op.print "%"]
      ∧ (alertStr old).data = pad2 old
      ∧ (alertStr new).data = pad2 new
      ∧ ∀ c : Char, Op.printChar c ∉ emitted (Display.updateSafetyMargin p old new) w := by
  have hn2 : ((new : Nat) : Int) < 15 := by exact_mod_cast hn
  have hem : emitted (Display.updateSafetyMargin p old new) w =
      (if w.display.inAlertMode then [] else alertScreenOps) ++ percentOps old new := by
    rw [emitted_updateSafetyMargin]
    simp [marginOps, hn2]
  refine ⟨by rw [hem]; rfl, alertStr_data old ho, alertStr_data new (by omega), ?_⟩
  intro c hc
  rw [hem] at hc
  cases hmode : w.display.inAlertMode <;>
    simp [hmode, alertScreenOps, percentOps] at hc

theorem alert_percentage_full_redraw_witness :
    (10 ≤ 99 ∧ 11 < 15) ∧ (alertStr ((11 : Nat) : Int)).data = pad2 11 :=
  ⟨⟨by decide, by decide⟩,
   (alert_percentage_full_redraw samplePanel 10 11 alertSample (by decide) (by decide)).2.2.1⟩

/-- C15, at the failing input.  Leaving Alert mode with battery 50 and speed
5 cached, the repaint after the screen clear is `updateValue` from old 0, a
diff against "00": it writes only the 5 of 50 (tens cell) and only the 5 of
05 (units cell); the 0 digits are never written on the cleared screen. -/
theorem exit_repaint_skips_zero_digits (p : Panel) :
    exitSample.display.inAlertMode = true ∧
      exitSample.display.currentBattery = 50 ∧ exitSample.display.currentSpeed = 5 ∧
      emitted (Display.updateSafetyMargin p 10 20) exitSample =
        Op.fillScreen BACKGROUND_COLOR :: labelOps p ++
          (Op.setTextSize 3 :: cellRedraw 0 20 ST7735_RED '0' '5') ++
          (Op.setTextSize 7 :: cellRedraw (70 + p.textW 7) 20 TEXT_COLOR '0' '5') := by
  refine ⟨rfl, rfl, rfl, ?_⟩
  have v1 := valueOps_nat p 0 50 0 20 ST7735_RED 3
  have v2 := valueOps_nat p 0 5 70 20 TEXT_COLOR 7
  norm_num [Nat.digitChar] at v1 v2
  rw [emitted_updateSafetyMargin]
  simp [marginOps, exitSample, batteryBand, v1, v2]

/-- C16.  For every state and decoded payload, a field whose key is absent
keeps its stored value across the parse cycle (battery, speed, safety margin,
distance); a payload with none of the four keys emits nothing and leaves the
display mode unchanged. -/
theorem missing_keys_skipped (p : Panel) (doc : Payload) (w : World) :
    (doc.vba = none →
        (APIManager.parseAndUpdateValues p (some doc) w).currentBattery = w.currentBattery) ∧
    (doc.vsp = none →
        (APIManager.parseAndUpdateValues p (some doc) w).currentSpeed = w.currentSpeed) ∧
    (doc.vsmg = none →
        (APIManager.parseAndUpdateValues p (some doc) w).currentSafetyMargin =
          w.currentSafetyMargin) ∧
    (doc.vdi = none →
        (APIManager.parseAndUpdateValues p (some doc) w).currentDistance = w.currentDistance) ∧
    (doc.vba = none → doc.vsp = none → doc.vsmg = none → doc.vdi = none →
        emitted (APIManager.parseAndUpdateValues p (some doc)) w = [] ∧
        (APIManager.parseAndUpdateValues p (some doc) w).display.inAlertMode =
          w.display.inAlertMode) := by
  obtain ⟨f1, f2, f3, f4⟩ := parse_fields p doc w
  obtain ⟨-, b2, b3, b4, -⟩ := stepBattery_frame p doc w
  obtain ⟨-, s2, -, s4, -⟩ := stepSpeed_frame p doc (APIManager.stepBattery p doc w)
  obtain ⟨-, -, m3, -, -⟩ := stepSafetyMargin_frame p doc (stepsBeforeMargin p doc w)
  refine ⟨?_, ?_, ?_, ?_, ?_⟩
  · intro h
    rw [f1, stepBattery_eq, h]
  · intro h
    rw [f2]
    unfold stepsBeforeMargin
    rw [stepSpeed_eq, h]
    exact b3
  · intro h
    rw [f3, stepSafetyMargin_eq, h]
    unfold stepsBeforeMargin
    rw [s2, b2]
  · intro h
    rw [f4, stepDistance_eq, h]
    show (APIManager.stepSafetyMargin p doc (stepsBeforeMargin p doc w)).currentDistance = _
    rw [m3]
    unfold stepsBeforeMargin
    rw [s4, b4]
  · intro h1 h2 h3 h4
    have e : doc = { vba := none, vsp := none, vsmg := none, vdi := none } := by
      cases doc; simp_all
    subst e
    exact ⟨emitted_of_ops (by rw [parse_empty]; simp [Display.setCurrentValues]), rfl⟩

theorem missing_keys_skipped_witness :
    (APIManager.parseAndUpdateValues samplePanel
        (some { vba := none, vsp := some 50, vsmg := some 10, vdi := some 5 })
        normalSample).currentBattery = normalSample.currentBattery ∧
      emitted (APIManager.parseAndUpdateValues samplePanel
        (some { vba := none, vsp := none, vsmg := none, vdi := none })) alertSample = [] :=
  ⟨(missing_keys_skipped samplePanel { vba := none, vsp := some 50, vsmg := some 10, vdi := some 5 }
      normalSample).1 rfl,
   ((missing_keys_skipped samplePanel { vba := none, vsp := none, vsmg := none, vdi := none }
      alertSample).2.2.2.2 rfl rfl rfl rfl).1⟩

/-- C17, at the failing input.  In Alert mode with battery 50 stored and
cached, the payload `vba = 90, vsmg = 20` stores battery 90 and leaves Alert
mode, but the forced repaint reads the cache of `Display`, which still holds
50: the trace writes the digit 5 in red at the Battery anchor and no digit of
90. -/
theorem exit_repaint_uses_stale_cache (p : Panel) :
    alertSample.display.inAlertMode = true ∧ alertSample.currentBattery = 50 ∧
      (APIManager.parseAndUpdateValues p
        (some { vba := some 90, vsp := none, vsmg := some 20, vdi := none })
        alertSample).display.inAlertMode = false ∧
      (APIManager.parseAndUpdateValues p
        (some { vba := some 90, vsp := none, vsmg := some 20, vdi := none })
        alertSample).currentBattery = 90 ∧
      emitted (APIManager.parseAndUpdateValues p
        (some { vba := some 90, vsp := none, vsmg := some 20, vdi := none })) alertSample =
        Op.fillScreen BACKGROUND_COLOR :: labelOps p ++
          (Op.setTextSize 3 :: cellRedraw 0 20 ST7735_RED '0' '5') ++
          (Op.setTextSize 7 :: cellRedraw 70 20 TEXT_COLOR '0' '2') := by
  have v1 := valueOps_nat p 0 50 0 20 ST7735_RED 3
  have v2 := valueOps_nat p 0 20 70 20 TEXT_COLOR 7
  norm_num [Nat.digitChar] at v1 v2
  refine ⟨rfl, rfl, ?_, ?_, ?_⟩
  · simp [APIManager.parseAndUpdateValues, stepBattery_eq, stepSpeed_eq, stepSafetyMargin_eq,
      stepDistance_eq, Display.setCurrentValues, alertSample]
  · simp [APIManager.parseAndUpdateValues, stepBattery_eq, stepSpeed_eq, stepSafetyMargin_eq,
      stepDistance_eq, Display.setCurrentValues, alertSample]
  · apply emitted_of_ops
    simp [APIManager.parseAndUpdateValues, stepBattery_eq, stepSpeed_eq, stepSafetyMargin_eq,
      stepDistance_eq, Display.setCurrentValues, alertSample, marginOps, batteryBand, v1, v2]

/-- C18, counterexample.  After `setup()` the stored battery, speed and
distance are 0, not 22, and a first parse cycle with the readings
`vba = 0, vsp = 0, vdi = 0` emits nothing: no digit is redrawn. -/
theorem first_reading_zero_not_redrawn :
    (setup samplePanel boot).currentBattery = 0 ∧ (setup samplePanel boot).currentSpeed = 0 ∧
      (setup samplePanel boot).currentDistance = 0 ∧
      emitted (APIManager.parseAndUpdateValues samplePanel
        (some { vba := some 0, vsp := some 0, vsmg := none, vdi := some 0 }))
        (setup samplePanel boot) = [] := by
  decide

/-- C18, amended.  The store is initialised to 0 and is still 0 after
`setup()`, whose trace ends with the three draws from the sentinel 22 to 0.
From the state after `setup()`, for a first reading `v` in 1..99: the parse
cycle's trace starts with the Battery redraw from 0 to `v`, which prints at
least one digit; it contains the Speed redraw from 0 to the converted `v`,
which prints at least one digit; and, when the cycle does not enter Alert mode
(no `vsmg`, or `vsmg` equal to 0 or at least 15), it ends with the Distance
redraw from 0 to the converted `v`, which prints at least one digit. -/
theorem first_reading_redraws (p : Panel) (doc : Payload) (v : Nat) (h1 : 1 ≤ v)
    (h2 : v ≤ 99) :
    ((setup p boot).currentBattery = 0 ∧ (setup p boot).currentSpeed = 0 ∧
        (setup p boot).currentDistance = 0) ∧
    emitted (setup p) boot = setupOps p ∧
    (doc.vba = some (v : Int) →
        (∃ rest, emitted (APIManager.parseAndUpdateValues p (some doc)) (setup p boot) =
          valueOps p 0 v 0 20 (batteryBand v) 3 ++ rest) ∧
        (valueOps p 0 v 0 20 (batteryBand v) 3).filter Op.isPrint ≠ []) ∧
    (doc.vsp = some (v : Int) →
        (∃ pre rest, emitted (APIManager.parseAndUpdateValues p (some doc)) (setup p boot) =
          pre ++ (valueOps p 0 (kmToMi v) 70 20 TEXT_COLOR 7 ++ rest)) ∧
        (valueOps p 0 (kmToMi v) 70 20 TEXT_COLOR 7).filter Op.isPrint ≠ []) ∧
    (doc.vdi = some (v : Int) → (∀ m, doc.vsmg = some m → m = 0 ∨ 15 ≤ m) →
        (∃ pre, emitted (APIManager.parseAndUpdateValues p (some doc)) (setup p boot) =
          pre ++ valueOps p 0 (kmToMi v) 0 60 TEXT_COLOR 3) ∧
        (valueOps p 0 (kmToMi v) 0 60 TEXT_COLOR 3).filter Op.isPrint ≠ []) := by
  obtain ⟨b0, s0, m0, d0, a0⟩ := setup_boot_fields p
  have hv0 : (v : Int) ≠ 0 := by exact_mod_cast (by omega : v ≠ 0)
  obtain ⟨k, hk, hk1, hk2⟩ := kmToMi_small v h1 h2
  obtain ⟨fb1, fb2, fb3, fb4, -⟩ := stepBattery_frame p doc (setup p boot)
  obtain ⟨fs1, fs2, -, fs4, -⟩ := stepSpeed_frame p doc (APIManager.stepBattery p doc (setup p boot))
  obtain ⟨-, -, fm3, -, -⟩ := stepSafetyMargin_frame p doc (stepsBeforeMargin p doc (setup p boot))
  refine ⟨⟨b0, s0, d0⟩, ?_, ?_, ?_, ?_⟩
  · apply emitted_of_ops
    have hs : ∀ (x y : Int) (c : Nat) (size : Int), valueOps p 0 0 x y c size =
        [Op.setTextSize size] := fun x y c size => by simp [valueOps, diffCell]
    simp [setup, Display.init, drawLabels_eq, Display.clearAndInitialize, updateBattery_eq,
      updateSpeed_eq, updateDistance_eq, tft.fillScreen, tft.setTextColor, tft.setTextSize,
      tft.setCursor, tft.print, tft.initR, tft.setRotation, tft.setSPISpeed, emit, boot,
      batteryBand, hs, setupOps]
  · intro hd
    refine ⟨⟨emitted (APIManager.stepSpeed p doc) (APIManager.stepBattery p doc (setup p boot)) ++
      (emitted (APIManager.stepSafetyMargin p doc) (stepsBeforeMargin p doc (setup p boot)) ++
      emitted (APIManager.stepDistance p doc)
        (APIManager.stepSafetyMargin p doc (stepsBeforeMargin p doc (setup p boot)))), ?_⟩,
      valueOps_from_zero_prints p v 0 20 _ 3 h1 h2⟩
    rw [parse_emitted, emitted_stepBattery_changed p doc _ v hd (by rw [b0]; exact hv0) a0, b0]
  · intro hd
    refine ⟨⟨emitted (APIManager.stepBattery p doc) (setup p boot),
      emitted (APIManager.stepSafetyMargin p doc) (stepsBeforeMargin p doc (setup p boot)) ++
      emitted (APIManager.stepDistance p doc)
        (APIManager.stepSafetyMargin p doc (stepsBeforeMargin p doc (setup p boot))), ?_⟩,
      by rw [hk]; exact valueOps_from_zero_prints p k 70 20 _ 7 hk1 hk2⟩
    rw [parse_emitted, emitted_stepSpeed_changed p doc _ v hd (by rw [fb3, s0]; exact hv0)
      (by rw [fb1]; exact a0), fb3, s0]
  · intro hd hm
    refine ⟨⟨emitted (APIManager.stepBattery p doc) (setup p boot) ++
      emitted (APIManager.stepSpeed p doc) (APIManager.stepBattery p doc (setup p boot)) ++
      emitted (APIManager.stepSafetyMargin p doc) (stepsBeforeMargin p doc (setup p boot)), ?_⟩,
      by rw [hk]; exact valueOps_from_zero_prints p k 0 60 _ 3 hk1 hk2⟩
    have hmode2 : (stepsBeforeMargin p doc (setup p boot)).display.inAlertMode = false := by
      unfold stepsBeforeMargin; rw [fs1, fb1]; exact a0
    have hcsm2 : (stepsBeforeMargin p doc (setup p boot)).currentSafetyMargin = 0 := by
      unfold stepsBeforeMargin; rw [fs2, fb2]; exact m0
    have hd2 : (stepsBeforeMargin p doc (setup p boot)).currentDistance = 0 := by
      unfold stepsBeforeMargin; rw [fs4, fb4]; exact d0
    have hmode3 := stepSafetyMargin_stays_normal p doc (stepsBeforeMargin p doc (setup p boot))
      hmode2 (by rw [hcsm2]; exact hm)
    rw [parse_emitted, emitted_stepDistance_changed p doc _ v hd
      (by rw [fm3, hd2]; exact hv0) hmode3, fm3, hd2]
    simp only [List.append_assoc]


theorem first_reading_redraws_witness :
    (1 ≤ 90 ∧ 90 ≤ 99) ∧
      (valueOps samplePanel 0 ((90 : Nat) : Int) 0 20 (batteryBand ((90 : Nat) : Int))
        3).filter Op.isPrint ≠ [] :=
  ⟨⟨by decide, by decide⟩,
   ((first_reading_redraws samplePanel { vba := some 90, vsp := none, vsmg := none, vdi := none }
      90 (by decide) (by decide)).2.2.1 rfl).2⟩

/-- C19.  For every `v >= 0` the text that `updateValue` formats is the
zero-padded two-digit form of `min v 99`: exactly two characters, both decimal
digits; it is "99" for every `v >= 99`, and `updateValue` between two values
that are both at least 99 only sets the text size and emits no draw
operation. -/
theorem twoDigitStr_clamped (p : Panel) (v a b : Nat) (x y : Int) (color : Nat) (size : Int)
    (w : World) :
    (twoDigitStr (v : Int)).data = pad2 (min v 99) ∧
      (twoDigitStr (v : Int)).length = 2 ∧
      (∀ ch ∈ (twoDigitStr (v : Int)).data, ch.isDigit = true) ∧
      (99 ≤ v → twoDigitStr (v : Int) = "99") ∧
      (99 ≤ a → 99 ≤ b →
        emitted (Display.updateValue p a b x y color size) w = [Op.setTextSize size] ∧
        (emitted (Display.updateValue p a b x y color size) w).filter Op.isDraw = []) := by
  have hd := twoDigitStr_data v
  refine ⟨hd, ?_, ?_, twoDigitStr_saturated v, ?_⟩
  · show (twoDigitStr (v : Int)).data.length = 2
    rw [hd]; rfl
  · rw [hd]
    exact pad2_digits ⟨min v 99, by omega⟩
  · intro ha hb
    have e : emitted (Display.updateValue p a b x y color size) w = [Op.setTextSize size] := by
      rw [emitted_updateValue, valueOps, twoDigitStr_saturated a ha, twoDigitStr_saturated b hb]
      simp [diffCell_same]
    exact ⟨e, by rw [e]; rfl⟩

theorem twoDigitStr_clamped_witness :
    (99 ≤ 150 ∧ 99 ≤ 99 ∧ 99 ≤ 250) ∧ twoDigitStr ((150 : Nat) : Int) = "99" ∧
      emitted (Display.updateValue samplePanel ((99 : Nat) : Int) ((250 : Nat) : Int) 0 20
        TEXT_COLOR 3) boot = [Op.setTextSize 3] :=
  ⟨⟨by decide, by decide, by decide⟩,
   (twoDigitStr_clamped samplePanel 150 99 250 0 20 TEXT_COLOR 3 boot).2.2.2.1 (by decide),
   ((twoDigitStr_clamped samplePanel 150 99 250 0 20 TEXT_COLOR 3 boot).2.2.2.2 (by decide)
      (by decide)).1⟩

/-- C20.  On the screen model, with distinct digit cells (glyph width not 0),
a screen filled with the background colour and a write colour other than the
background: if the two cells at the anchor show the two-digit form of `a`,
then after the trace of `updateValue(a, b)` they show the two-digit form of
`b`; and the chained updates `a` to `b`, then `b` to `c`, leave every cell of
the screen with the same content as the direct update `a` to `c`. -/
theorem updateValue_screen_sound (p : Panel) (a b c : Nat) (x y : Int) (color : Nat)
    (size : Int) (w1 w2 w3 : World) (s : Screen) (hgw : p.textW size ≠ 0)
    (hbg : s.bg = BACKGROUND_COLOR) (hcol : color ≠ BACKGROUND_COLOR)
    (hs : s.shows x y (p.textW size) a) :
    (render p s (emitted (Display.updateValue p a b x y color size) w1)).shows x y
        (p.textW size) b ∧
      (render p (render p s (emitted (Display.updateValue p a b x y color size) w1))
          (emitted (Display.updateValue p b c x y color size) w2)).cells =
        (render p s (emitted (Display.updateValue p a c x y color size) w3)).cells := by
  have hne : (x + p.textW size, y) ≠ (x, y) := by
    intro e
    have := congrArg Prod.fst e
    simp at this
    exact hgw this
  simp only [emitted_updateValue]
  obtain ⟨cb, bb⟩ := render_valueOps p s a b x y color size hgw hbg hcol hs
  have hsb : (render p s (valueOps p a b x y color size)).shows x y (p.textW size) b := by
    constructor
    · rw [cb, Function.update_noteq hne.symm, Function.update_same]
    · rw [cb, Function.update_same]
  obtain ⟨cc, -⟩ := render_valueOps p (render p s (valueOps p a b x y color size)) b c x y color
    size hgw (bb.trans hbg) hcol hsb
  obtain ⟨cd, -⟩ := render_valueOps p s a c x y color size hgw hbg hcol hs
  refine ⟨hsb, ?_⟩
  rw [cc, cd, cb]
  funext q
  by_cases h1 : q = (x + p.textW size, y)
  · subst h1; simp
  · by_cases h2 : q = (x, y)
    · subst h2; simp [Function.update_noteq h1]
    · simp [Function.update_noteq h1, Function.update_noteq h2]

theorem updateValue_screen_sound_witness :
    sampleScreen.shows 0 20 (samplePanel.textW 3) 22 ∧
      (render samplePanel sampleScreen
        (emitted (Display.updateValue samplePanel ((22 : Nat) : Int) ((90 : Nat) : Int) 0 20
          ST7735_GREEN 3) boot)).shows 0 20 (samplePanel.textW 3) 90 :=
  ⟨by decide,
   (updateValue_screen_sound samplePanel 22 90 31 0 20 ST7735_GREEN 3 boot boot boot sampleScreen
      (by decide) rfl (by decide) (by decide)).1⟩

end EucHud
